import Mathlib

/-!
# Verification of the IdleAceCommander combat core

Shallow embedding of the deterministic Outcome Generator
(`src/utils/dialogueGenerator.ts`, overhauled `calculateBattleOutcome` version)
and of the real-time reconciling battle simulation
(`src/hooks/useBattleSimulation.ts`, scripted-event version).

Modelling conventions:
* JavaScript `number` is modelled by `ℚ` (all arithmetic performed by the
  translated code — `+ - * /`, `Math.floor`, `Math.round`, comparisons — is
  exact on the rationals; decimal literals such as `1.15` are taken at face
  value).
* `Math.random()` is modelled by an explicit stream `Rng : Nat → ℚ` indexed by
  call number; a call counter is threaded through the translated code in
  JavaScript evaluation order.  A genuine run has every drawn value in `[0,1)`.
* JavaScript array indexing out of range yields `undefined` and a subsequent
  property access throws; this is modelled by `Option` propagation.
* `Array.prototype.sort` (stable) is modelled by `List.mergeSort`.
-/

namespace IdleAce

/-- Stream of `Math.random()` results: call number ↦ drawn value. -/
abbrev Rng := Nat → ℚ

/-- JS `Math.floor`. -/
def jsFloor (q : ℚ) : Int := ⌊q⌋

/-- JS `Math.round` (rounds half toward +∞). -/
def jsRound (q : ℚ) : Int := ⌊q + 1/2⌋

/-- JS array indexing `l[i]` where `i = Math.floor q`; out-of-range (or negative)
indices give `undefined`, modelled as `none`. -/
def jsIndex {α : Type} (l : List α) (q : ℚ) : Option α :=
  if jsFloor q < 0 then none else l.get? (jsFloor q).toNat

-- ====================================================================================
-- Data model (src/types/game.types.ts, src/types/combat.types.ts)
-- ====================================================================================

structure ComputedStats where
  weaponStrength : ℚ
  speed : ℚ
  agility : ℚ
deriving Repr, DecidableEq

structure FighterJet where
  id : String
  computedStats : ComputedStats
  assignedPilotId : Option String
deriving Repr, DecidableEq

structure Pilot where
  id : String
  intelligence : ℚ
  endurance : ℚ
deriving Repr, DecidableEq

structure EnemyStats where
  weaponStrength : ℚ
  speed : ℚ
  agility : ℚ
  intelligence : ℚ
  endurance : ℚ
deriving Repr, DecidableEq

structure MissionRewards where
  credits : ℚ
  researchPoints : ℚ
  highScoreBonus : ℚ
deriving Repr, DecidableEq

structure Mission where
  enemyCount : Nat
  enemyStats : EnemyStats
  rewards : MissionRewards
deriving Repr, DecidableEq

inductive EventType
  | hit
  | miss
  | destroy
  | escape
deriving Repr, DecidableEq

/-- `BattleEvent` of combat.types.ts; `damage?` is optional. -/
structure BattleEvent where
  timestamp : ℚ
  type : EventType
  attackerId : String
  targetId : String
  damage : Option ℚ
deriving Repr, DecidableEq

structure PilotStat where
  pilotId : String
  kills : ℚ
  damage : ℚ
  survival : Bool
deriving Repr, DecidableEq

/-- `BattleResults` of combat.types.ts (rewards inlined as three fields). -/
structure BattleResults where
  victory : Bool
  survivingAllied : ℚ
  destroyedAllied : ℚ
  survivingEnemy : ℚ
  destroyedEnemy : ℚ
  enemiesEscaped : ℚ
  duration : ℚ
  rewardsCredits : ℚ
  rewardsResearchPoints : ℚ
  rewardsHighScoreBonus : ℚ
  pilotStats : List PilotStat
deriving Repr, DecidableEq

inductive Tactic
  | aggressive
  | defensive
deriving Repr, DecidableEq

-- ====================================================================================
-- Outcome Generator (dialogueGenerator.ts, overhauled version, lines 285-535)
-- ====================================================================================

def BATTLE_DURATION : ℚ := 30000
def BASE_HIT_CHANCE : ℚ := 1/2
def AGILITY_HIT_MODIFIER : ℚ := 5/1000
def BASE_KILL_CHANCE : ℚ := 15/100
def WEAPON_KILL_MODIFIER : ℚ := 2/1000
def FLEE_THRESHOLD : ℚ := 4/10

inductive Team
  | allied
  | enemy
deriving Repr, DecidableEq

/-- Internal `SimEntity` of the generator. -/
structure SimEntity where
  id : String
  team : Team
  isAlive : Bool
  weaponStrength : ℚ
  speed : ℚ
  agility : ℚ
  intelligence : ℚ
  pilotId : Option String
deriving Repr, DecidableEq

/-- `pilots.find(p => p.id === jet.assignedPilotId)`; a `null` id matches nothing. -/
def findPilot (pilots : List Pilot) (assignedPilotId : Option String) : Option Pilot :=
  match assignedPilotId with
  | none => none
  | some pid => pilots.find? (fun p => p.id == pid)

/-- `calculateSquadronPower`: jets whose pilot lookup fails contribute nothing. -/
def calculateSquadronPower (squadron : List FighterJet) (pilots : List Pilot) : ℚ :=
  squadron.foldl (fun total jet =>
    match findPilot pilots jet.assignedPilotId with
    | none => total
    | some pilot =>
      let jetPower := jet.computedStats.weaponStrength + jet.computedStats.speed +
        jet.computedStats.agility
      let pilotPower := pilot.intelligence + pilot.endurance
      total + jetPower + pilotPower) 0

def calculateEnemyPower (mission : Mission) : ℚ :=
  let stats := mission.enemyStats
  let singleEnemyPower := stats.weaponStrength + stats.speed + stats.agility +
    stats.intelligence + stats.endurance
  singleEnemyPower * (mission.enemyCount : ℚ)

def tacticModifier : Tactic → ℚ
  | .aggressive => 115/100
  | .defensive => 1

/-- Allied `SimEntity` list: pilot lookup falls back to `{intelligence: 50, endurance: 50}`
(whose `id` is `undefined`, hence `pilotId := none`). -/
def mkAlliedSimEntities (squadron : List FighterJet) (pilots : List Pilot) : List SimEntity :=
  squadron.mapIdx fun i jet =>
    match findPilot pilots jet.assignedPilotId with
    | some pilot =>
      { id := s!"allied-{i}"
        team := .allied
        isAlive := true
        weaponStrength := jet.computedStats.weaponStrength
        speed := jet.computedStats.speed
        agility := jet.computedStats.agility
        intelligence := pilot.intelligence
        pilotId := some pilot.id }
    | none =>
      { id := s!"allied-{i}"
        team := .allied
        isAlive := true
        weaponStrength := jet.computedStats.weaponStrength
        speed := jet.computedStats.speed
        agility := jet.computedStats.agility
        intelligence := 50
        pilotId := none }

def mkEnemySimEntities (mission : Mission) : List SimEntity :=
  (List.range mission.enemyCount).map fun i =>
    { id := s!"enemy-{i}"
      team := .enemy
      isAlive := true
      weaponStrength := mission.enemyStats.weaponStrength
      speed := mission.enemyStats.speed
      agility := mission.enemyStats.agility
      intelligence := mission.enemyStats.intelligence
      pilotId := none }

/-- `targetInMasterList.isAlive = false` via `find` (first matching id only). -/
def markFirstDead : List SimEntity → String → List SimEntity
  | [], _ => []
  | e :: rest, tid =>
    if e.id == tid then { e with isAlive := false } :: rest
    else e :: markFirstDead rest tid

def sumBy (l : List SimEntity) (f : SimEntity → ℚ) : ℚ := (l.map f).sum

/-- Loop state of `generateBattleEvents`' main simulation loop;
`k` is the `Math.random()` call counter. -/
structure GenState where
  allied : List SimEntity
  enemy : List SimEntity
  battleTime : ℚ
  events : List BattleEvent
  k : Nat
deriving Repr, DecidableEq

/-- The random draws and derived decisions of one loop iteration (lines 397-427). -/
structure GenRoll where
  battleTime : ℚ
  isAlliedAttack : Bool
  attacker : SimEntity
  target : SimEntity
  doesHit : Bool
  isKill : Bool
  canKill : Bool
  kNext : Nat
deriving Repr, DecidableEq

/-- One iteration's rolls: time advance, initiative, attacker/defender picks, hit and
kill rolls, and the `canKill` gate.  `none` models the `TypeError` a JS run would
throw on an out-of-range pick.  (With `totalInitiative = 0` JS computes `NaN` and the
comparison is false; the `ℚ` division gives `0/0 = 0`, which agrees for draws `≥ 0`.) -/
def genRoll (rng : Rng) (alliedWins : Bool) (s : GenState) : Option GenRoll :=
  let aliveAllies := s.allied.filter (·.isAlive)
  let aliveEnemies := s.enemy.filter (·.isAlive)
  let t0 := s.battleTime + 1500 + rng s.k * 2000
  let battleTime := if t0 > BATTLE_DURATION then BATTLE_DURATION else t0
  let alliedInitiative := sumBy aliveAllies (fun j => j.speed + j.intelligence)
  let enemyInitiative := sumBy aliveEnemies (fun j => j.speed + j.intelligence)
  let totalInitiative := alliedInitiative + enemyInitiative
  let isAlliedAttack := decide (rng (s.k+1) < alliedInitiative / totalInitiative)
  let attackers := if isAlliedAttack then aliveAllies else aliveEnemies
  let defenders := if isAlliedAttack then aliveEnemies else aliveAllies
  match jsIndex attackers (rng (s.k+2) * (attackers.length : ℚ)),
        jsIndex defenders (rng (s.k+3) * (defenders.length : ℚ)) with
  | some attacker, some target =>
    let agilityDiff := attacker.intelligence - target.agility
    let hitChance := BASE_HIT_CHANCE + agilityDiff * AGILITY_HIT_MODIFIER
    let doesHit := decide (rng (s.k+4) < hitChance)
    if doesHit then
      let killChance := BASE_KILL_CHANCE + attacker.weaponStrength * WEAPON_KILL_MODIFIER
      let isKill := decide (rng (s.k+5) < killChance)
      let canKill := (isAlliedAttack && alliedWins) || (!isAlliedAttack && !alliedWins) ||
        decide (defenders.length > 1)
      some { battleTime := battleTime
             isAlliedAttack := isAlliedAttack
             attacker := attacker
             target := target
             doesHit := true
             isKill := isKill
             canKill := canKill
             kNext := s.k+6 }
    else
      some { battleTime := battleTime
             isAlliedAttack := isAlliedAttack
             attacker := attacker
             target := target
             doesHit := false
             isKill := false
             canKill := false
             kNext := s.k+5 }
  | _, _ => none

/-- Whether the iteration rolled a candidate kill that the `canKill` gate vetoes. -/
def vetoedKillRolled (rng : Rng) (alliedWins : Bool) (s : GenState) : Bool :=
  match genRoll rng alliedWins s with
  | some r => r.doesHit && r.isKill && r.target.isAlive && !r.canKill
  | none => false

/-- Body of the main simulation loop (lines 396-452), after the break checks. -/
def genIter (rng : Rng) (alliedWins : Bool) (s : GenState) : Option GenState :=
  match genRoll rng alliedWins s with
  | none => none
  | some r =>
    if r.doesHit then
      if r.isKill && r.target.isAlive then
        if r.canKill then
          let ev : BattleEvent :=
            { timestamp := r.battleTime
              type := .destroy
              attackerId := r.attacker.id
              targetId := r.target.id
              damage := some 100 }
          if r.isAlliedAttack then
            some { s with battleTime := r.battleTime
                          k := r.kNext
                          events := s.events ++ [ev]
                          enemy := markFirstDead s.enemy r.target.id }
          else
            some { s with battleTime := r.battleTime
                          k := r.kNext
                          events := s.events ++ [ev]
                          allied := markFirstDead s.allied r.target.id }
        else
          -- a vetoed kill falls through: no event of any kind is pushed
          some { s with battleTime := r.battleTime, k := r.kNext }
      else
        let ev : BattleEvent :=
          { timestamp := r.battleTime
            type := .hit
            attackerId := r.attacker.id
            targetId := r.target.id
            damage := some ((jsRound (10 + r.attacker.weaponStrength / 10) : Int) : ℚ) }
        some { s with battleTime := r.battleTime, k := r.kNext, events := s.events ++ [ev] }
    else
      some { s with battleTime := r.battleTime, k := r.kNext }

/-- The `while (battleTime < BATTLE_DURATION)` loop, with fuel.  Each iteration
advances `battleTime` by at least `1500` for draws in `[0,1)`, so at most 20
iterations run and `GEN_FUEL = 21` never exhausts on a genuine random stream;
exhaustion (`none`) models non-termination on an invalid stream. -/
def genLoop (rng : Rng) (alliedWins : Bool) : Nat → GenState → Option GenState
  | 0, _ => none
  | fuel+1, s =>
    if s.battleTime < BATTLE_DURATION then
      if (s.allied.filter (·.isAlive)).length = 0 ∨ (s.enemy.filter (·.isAlive)).length = 0 then
        some s
      else
        match genIter rng alliedWins s with
        | none => none
        | some t => genLoop rng alliedWins fuel t
    else some s

def GEN_FUEL : Nat := 21

/-- `generateBattleEvents` (lines 358-470): main loop, escape logic, stable sort. -/
def generateBattleEvents (squadron : List FighterJet) (pilots : List Pilot)
    (mission : Mission) (alliedWins : Bool) (rng : Rng) : Option (List BattleEvent) :=
  let alliedEntities := mkAlliedSimEntities squadron pilots
  let enemyEntities := mkEnemySimEntities mission
  match genLoop rng alliedWins GEN_FUEL
      { allied := alliedEntities, enemy := enemyEntities, battleTime := 0, events := [], k := 0 } with
  | none => none
  | some s =>
    let remainingEnemies := s.enemy.filter (·.isAlive)
    let events :=
      if alliedWins && decide (remainingEnemies.length > 0) &&
          decide ((remainingEnemies.length : ℚ) / (mission.enemyCount : ℚ) < FLEE_THRESHOLD) then
        let fleeTime := BATTLE_DURATION * (8/10) + rng s.k * 2000
        s.events ++ (remainingEnemies.mapIdx fun i enemy =>
          { timestamp := fleeTime + (i : ℚ) * 200
            type := .escape
            attackerId := enemy.id
            targetId := ""
            damage := none })
      else s.events
    some (events.mergeSort (fun a b => a.timestamp ≤ b.timestamp))

/-- `pilotStatsMap` initialisation (lines 483-487); `jet.assignedPilotId || ...`
falls back when the id is `null` or the empty string (both falsy). -/
def initStatsMap (squadron : List FighterJet) : List (String × PilotStat) :=
  squadron.mapIdx fun i jet =>
    let pilotId :=
      match jet.assignedPilotId with
      | some pid => if pid = "" then s!"unknown-{i}" else pid
      | none => s!"unknown-{i}"
    (s!"allied-{i}", { pilotId := pilotId, kills := 0, damage := 0, survival := true })

/-- In-place update of the stats map at a key (keys are unique by construction). -/
def updateStat (m : List (String × PilotStat)) (key : String) (f : PilotStat → PilotStat) :
    List (String × PilotStat) :=
  match m with
  | [] => []
  | kv :: rest => if kv.1 == key then (kv.1, f kv.2) :: rest else kv :: updateStat rest key f

structure ResultsAcc where
  statsMap : List (String × PilotStat)
  destroyedAlliedCount : ℚ
  destroyedEnemyCount : ℚ
deriving Repr, DecidableEq

/-- Per-event processing of `calculateResultsFromEvents` (lines 493-513).
A missing `damage` would make only the JS damage stat `NaN`; it is modelled as 0
(no claim concerns the damage stat on damage-less events). -/
def processEvent (acc : ResultsAcc) (event : BattleEvent) : ResultsAcc :=
  if event.type == .hit || event.type == .destroy then
    let dmg := event.damage.getD 0
    let acc1 := { acc with
      statsMap := updateStat acc.statsMap event.attackerId
        (fun st => { st with damage := st.damage + dmg }) }
    if event.type == .destroy then
      if (acc1.statsMap.find? (fun kv => kv.1 == event.targetId)).isSome then
        { acc1 with
          statsMap := updateStat acc1.statsMap event.targetId
            (fun st => { st with survival := false })
          destroyedAlliedCount := acc1.destroyedAlliedCount + 1 }
      else
        let acc2 := { acc1 with destroyedEnemyCount := acc1.destroyedEnemyCount + 1 }
        if (acc2.statsMap.find? (fun kv => kv.1 == event.attackerId)).isSome then
          { acc2 with
            statsMap := updateStat acc2.statsMap event.attackerId
              (fun st => { st with kills := st.kills + 1 }) }
        else acc2
    else acc1
  else acc

/-- `calculateResultsFromEvents` (lines 476-535). -/
def calculateResultsFromEvents (squadron : List FighterJet) (mission : Mission)
    (events : List BattleEvent) (alliedWins : Bool) : BattleResults :=
  let acc := events.foldl processEvent
    { statsMap := initStatsMap squadron, destroyedAlliedCount := 0, destroyedEnemyCount := 0 }
  let enemiesEscaped : ℚ := ((events.filter (fun e => e.type == .escape)).length : ℚ)
  let survivingAllied : ℚ := (squadron.length : ℚ) - acc.destroyedAlliedCount
  let survivingEnemy : ℚ :=
    (mission.enemyCount : ℚ) - acc.destroyedEnemyCount - enemiesEscaped
  let rewardMultiplier : ℚ := if alliedWins then 1 else 3/10
  { victory := alliedWins
    survivingAllied := survivingAllied
    destroyedAllied := acc.destroyedAlliedCount
    survivingEnemy := survivingEnemy
    destroyedEnemy := acc.destroyedEnemyCount
    enemiesEscaped := enemiesEscaped
    duration := BATTLE_DURATION
    rewardsCredits := ((jsFloor (mission.rewards.credits * rewardMultiplier) : Int) : ℚ)
    rewardsResearchPoints :=
      ((jsFloor (mission.rewards.researchPoints * rewardMultiplier) : Int) : ℚ)
    rewardsHighScoreBonus :=
      ((jsFloor (mission.rewards.highScoreBonus * rewardMultiplier) : Int) : ℚ)
    pilotStats := acc.statsMap.map (·.2) }

structure BattleOutcome where
  events : List BattleEvent
  results : BattleResults
deriving Repr, DecidableEq

/-- `calculateBattleOutcome` (lines 313-333). -/
def calculateBattleOutcome (squadron : List FighterJet) (pilots : List Pilot)
    (mission : Mission) (tactic : Tactic) (rng : Rng) : Option BattleOutcome :=
  let alliedPower := calculateSquadronPower squadron pilots
  let enemyPower := calculateEnemyPower mission
  let adjustedAlliedPower := alliedPower * tacticModifier tactic
  let alliedWins := decide (adjustedAlliedPower > enemyPower)
  match generateBattleEvents squadron pilots mission alliedWins rng with
  | none => none
  | some events =>
    some { events := events
           results := calculateResultsFromEvents squadron mission events alliedWins }


-- ====================================================================================
-- Spec-side definition for the victor-consistency claim (refinement comparison)
-- ====================================================================================

/-- Allied power as the spec words it: for each allied jet, (weaponStrength + speed +
agility) plus (intelligence + endurance) of its assigned pilot. -/
def alliedPowerSpec (squadron : List FighterJet) (pilots : List Pilot) : ℚ :=
  (squadron.map fun jet =>
    jet.computedStats.weaponStrength + jet.computedStats.speed + jet.computedStats.agility +
      (match findPilot pilots jet.assignedPilotId with
       | some p => p.intelligence + p.endurance
       | none => 0)).sum

lemma squadronPower_foldl_aux (pilots : List Pilot) :
    ∀ (squadron : List FighterJet) (a : ℚ),
      (∀ jet ∈ squadron, (findPilot pilots jet.assignedPilotId).isSome) →
      squadron.foldl (fun total jet =>
        match findPilot pilots jet.assignedPilotId with
        | none => total
        | some pilot =>
          let jetPower := jet.computedStats.weaponStrength + jet.computedStats.speed +
            jet.computedStats.agility
          let pilotPower := pilot.intelligence + pilot.endurance
          total + jetPower + pilotPower) a
      = a + alliedPowerSpec squadron pilots := by
  intro squadron
  induction squadron with
  | nil => intro a _; simp [alliedPowerSpec]
  | cons jet rest ih =>
    intro a h
    have hjet := h jet (List.mem_cons_self _ _)
    obtain ⟨p, hp⟩ := Option.isSome_iff_exists.mp hjet
    have hrest : ∀ j ∈ rest, (findPilot pilots j.assignedPilotId).isSome :=
      fun j hj => h j (List.mem_cons_of_mem _ hj)
    simp only [List.foldl_cons, hp]
    rw [ih _ hrest]
    simp only [alliedPowerSpec, List.map_cons, List.sum_cons, hp]
    ring

/-- The generator's squadron power agrees with the spec's formula whenever every
jet's assigned-pilot lookup succeeds. -/
lemma calculateSquadronPower_eq_spec (squadron : List FighterJet) (pilots : List Pilot)
    (h : ∀ jet ∈ squadron, (findPilot pilots jet.assignedPilotId).isSome) :
    calculateSquadronPower squadron pilots = alliedPowerSpec squadron pilots := by
  unfold calculateSquadronPower
  rw [squadronPower_foldl_aux pilots squadron 0 h, zero_add]

lemma victory_calculateResultsFromEvents (squadron : List FighterJet) (mission : Mission)
    (events : List BattleEvent) (alliedWins : Bool) :
    (calculateResultsFromEvents squadron mission events alliedWins).victory = alliedWins := rfl

-- ====================================================================================
-- Shared evaluation lemmas for the generator
-- ====================================================================================

lemma genLoop_break (rng : Rng) (aw : Bool) (fuel : Nat) (s : GenState)
    (hfuel : fuel ≠ 0) (ht : s.battleTime < BATTLE_DURATION)
    (hside : (s.allied.filter (·.isAlive)).length = 0 ∨
      (s.enemy.filter (·.isAlive)).length = 0) :
    genLoop rng aw fuel s = some s := by
  cases fuel with
  | zero => exact absurd rfl hfuel
  | succ n =>
    have hstep : genLoop rng aw (n+1) s =
        if s.battleTime < BATTLE_DURATION then
          if (s.allied.filter (·.isAlive)).length = 0 ∨
              (s.enemy.filter (·.isAlive)).length = 0 then
            some s
          else
            match genIter rng aw s with
            | none => none
            | some t => genLoop rng aw n t
        else some s := rfl
    rw [hstep, if_pos ht, if_pos hside]

lemma mkEnemySimEntities_length (mission : Mission) :
    (mkEnemySimEntities mission).length = mission.enemyCount := by
  simp [mkEnemySimEntities]

lemma mkEnemySimEntities_filter_alive (mission : Mission) :
    (mkEnemySimEntities mission).filter (·.isAlive) = mkEnemySimEntities mission := by
  rw [List.filter_eq_self]
  intro e he
  simp only [mkEnemySimEntities, List.mem_map] at he
  obtain ⟨i, _, rfl⟩ := he
  rfl

lemma generateBattleEvents_enemyCount_zero (squadron : List FighterJet) (pilots : List Pilot)
    (mission : Mission) (aw : Bool) (rng : Rng) (hcount : mission.enemyCount = 0) :
    generateBattleEvents squadron pilots mission aw rng = some [] := by
  have henemy : mkEnemySimEntities mission = [] := by
    simp [mkEnemySimEntities, hcount]
  simp only [generateBattleEvents]
  rw [genLoop_break rng aw GEN_FUEL _ (by norm_num [GEN_FUEL])
    (by norm_num [BATTLE_DURATION]) (Or.inr (by simp [henemy]))]
  simp [henemy]

lemma generateBattleEvents_squadron_nil (pilots : List Pilot) (mission : Mission)
    (aw : Bool) (rng : Rng) :
    generateBattleEvents [] pilots mission aw rng = some [] := by
  have hallied : mkAlliedSimEntities [] pilots = [] := by
    simp [mkAlliedSimEntities]
  have hfe := mkEnemySimEntities_filter_alive mission
  have hfl := mkEnemySimEntities_length mission
  simp only [generateBattleEvents]
  rw [genLoop_break rng aw GEN_FUEL _ (by norm_num [GEN_FUEL])
    (by norm_num [BATTLE_DURATION]) (Or.inl (by simp [hallied]))]
  by_cases hc : mission.enemyCount = 0
  · simp [hallied, hfe, hfl, hc]
  · have hratio : ¬ ((mission.enemyCount : ℚ) / (mission.enemyCount : ℚ) < FLEE_THRESHOLD) := by
      rw [div_self (by exact_mod_cast hc)]
      norm_num [FLEE_THRESHOLD]
    simp [hallied, hfe, hfl, hratio]

-- ====================================================================================
-- C2
-- ====================================================================================

/-- C2: for every roster, mission, tactic and random stream on which
`calculateBattleOutcome` returns (it always does on a genuine random stream), the
`victory` flag of the returned `BattleResults` equals the comparison
`alliedPower * tacticMultiplier > enemyPower` — with `alliedPower` the per-jet
(weapon + speed + agility) plus assigned-pilot (intelligence + endurance) sum, and
`enemyPower` the per-enemy stat sum times the enemy count — and the aggressive
multiplier (1.15) strictly exceeds the defensive one (1.0).  The victor decision is
taken before event generation and copied unchanged into the results, so no later
generation step changes it. -/
theorem c2_victor_consistency (squadron : List FighterJet) (pilots : List Pilot)
    (mission : Mission) (tactic : Tactic) (rng : Rng) (out : BattleOutcome)
    (hpilots : ∀ jet ∈ squadron, (findPilot pilots jet.assignedPilotId).isSome)
    (hout : calculateBattleOutcome squadron pilots mission tactic rng = some out) :
    out.results.victory =
      decide (alliedPowerSpec squadron pilots * tacticModifier tactic >
        calculateEnemyPower mission) ∧
    tacticModifier .aggressive > tacticModifier .defensive := by
  refine ⟨?_, by norm_num [tacticModifier]⟩
  simp only [calculateBattleOutcome] at hout
  cases hgen : generateBattleEvents squadron pilots mission
      (decide (calculateSquadronPower squadron pilots * tacticModifier tactic >
        calculateEnemyPower mission)) rng with
  | none => rw [hgen] at hout; exact absurd hout (by simp)
  | some events =>
    rw [hgen] at hout
    simp only [Option.some.injEq] at hout
    rw [← hout, victory_calculateResultsFromEvents,
      calculateSquadronPower_eq_spec squadron pilots hpilots]

def c2Rng : Rng := fun _ => 0

def c2Mission : Mission :=
  { enemyCount := 0
    enemyStats := { weaponStrength := 0, speed := 0, agility := 0, intelligence := 0, endurance := 0 }
    rewards := { credits := 0, researchPoints := 0, highScoreBonus := 0 } }

/-- Witness for C2 at a concrete degenerate input (empty squadron, zero enemies). -/
theorem c2_victor_consistency_witness :
    (∀ jet ∈ ([] : List FighterJet), (findPilot [] jet.assignedPilotId).isSome) ∧
    ((calculateBattleOutcome [] [] c2Mission .aggressive c2Rng).map
        (fun out => out.results.victory)
      = some (decide (alliedPowerSpec [] [] * tacticModifier .aggressive >
          calculateEnemyPower c2Mission))) := by
  have hnil : ∀ jet ∈ ([] : List FighterJet), (findPilot [] jet.assignedPilotId).isSome :=
    fun jet hj => absurd hj (List.not_mem_nil jet)
  refine ⟨hnil, ?_⟩
  cases hout : calculateBattleOutcome [] [] c2Mission .aggressive c2Rng with
  | none =>
    rw [show calculateBattleOutcome [] [] c2Mission .aggressive c2Rng =
        some { events := []
               results := calculateResultsFromEvents [] c2Mission []
                 (decide (calculateSquadronPower [] [] * tacticModifier .aggressive >
                   calculateEnemyPower c2Mission)) } by
      simp only [calculateBattleOutcome]
      rw [generateBattleEvents_enemyCount_zero [] [] c2Mission _ c2Rng rfl]] at hout
    exact absurd hout (by simp)
  | some out =>
    simp only [Option.map_some']
    exact congrArg some
      (c2_victor_consistency [] [] c2Mission .aggressive c2Rng out hnil hout).1

-- ====================================================================================
-- C3
-- ====================================================================================

def c3Allied : SimEntity :=
  { id := "allied-0", team := .allied, isAlive := true, weaponStrength := 0, speed := 5
    agility := 5, intelligence := 5, pilotId := none }

def c3Enemy : SimEntity :=
  { id := "enemy-0", team := .enemy, isAlive := true, weaponStrength := 0, speed := 5
    agility := 5, intelligence := 5, pilotId := none }

def c3State : GenState :=
  { allied := [c3Allied], enemy := [c3Enemy], battleTime := 0, events := [], k := 0 }

def c3Rng : Rng := fun _ => 0

/-- C3 counterexample: on this concrete generator state (allies decided to lose, a
single enemy defender left) the iteration rolls a candidate kill that the victor
gate vetoes (`vetoedKillRolled = true`), yet the iteration emits NO event at all —
the event list is unchanged, only the time cursor and random counter advance —
whereas the claim says the vetoed kill is downgraded to a non-lethal hit event. -/
theorem c3_counterexample :
    vetoedKillRolled c3Rng false c3State = true ∧
    genIter c3Rng false c3State = some { c3State with battleTime := 1500, k := 6 } := by
  constructor
  · norm_num [vetoedKillRolled, genRoll, c3State, c3Rng, c3Allied, c3Enemy, sumBy, jsIndex,
      jsFloor, BATTLE_DURATION, BASE_HIT_CHANCE, AGILITY_HIT_MODIFIER, BASE_KILL_CHANCE,
      WEAPON_KILL_MODIFIER]
  · norm_num [genIter, genRoll, c3State, c3Rng, c3Allied, c3Enemy, sumBy, jsIndex,
      jsFloor, BATTLE_DURATION, BASE_HIT_CHANCE, AGILITY_HIT_MODIFIER, BASE_KILL_CHANCE,
      WEAPON_KILL_MODIFIER]

/-- C3 (amended): whenever a candidate kill is rolled that the `canKill` gate vetoes,
the generator suppresses the exchange entirely — no destroy event, no hit event, no
entity state change; only the time cursor and the random counter advance. -/
theorem c3_amended_gate (rng : Rng) (alliedWins : Bool) (s : GenState)
    (h : vetoedKillRolled rng alliedWins s = true) :
    ∃ r, genRoll rng alliedWins s = some r ∧
      genIter rng alliedWins s = some { s with battleTime := r.battleTime, k := r.kNext } := by
  unfold vetoedKillRolled at h
  cases hr : genRoll rng alliedWins s with
  | none => rw [hr] at h; exact absurd h (by simp)
  | some r =>
    rw [hr] at h
    simp only [Bool.and_eq_true, Bool.not_eq_true'] at h
    refine ⟨r, rfl, ?_⟩
    unfold genIter
    rw [hr]
    simp [h.1.1.1, h.1.1.2, h.1.2, h.2]

/-- Witness for the amended C3 at the concrete vetoed-kill input. -/
theorem c3_amended_gate_witness :
    vetoedKillRolled c3Rng false c3State = true ∧
    (∃ r, genRoll c3Rng false c3State = some r ∧
      genIter c3Rng false c3State =
        some { c3State with battleTime := r.battleTime, k := r.kNext }) := by
  have h : vetoedKillRolled c3Rng false c3State = true := by
    norm_num [vetoedKillRolled, genRoll, c3State, c3Rng, c3Allied, c3Enemy, sumBy, jsIndex,
      jsFloor, BATTLE_DURATION, BASE_HIT_CHANCE, AGILITY_HIT_MODIFIER, BASE_KILL_CHANCE,
      WEAPON_KILL_MODIFIER]
  exact ⟨h, c3_amended_gate c3Rng false c3State h⟩

-- ====================================================================================
-- C8
-- ====================================================================================

/-- C8: with `enemyCount = 0` the generator short-circuits: `calculateBattleOutcome`
returns normally with no combat events and the fixed degenerate result
`destroyedEnemy = enemiesEscaped = survivingEnemy = 0`; likewise with zero allied
units it returns normally, the event loop having produced no events. -/
theorem c8_degenerate_inputs (squadron : List FighterJet) (pilots : List Pilot)
    (mission : Mission) (tactic : Tactic) (rng : Rng) :
    (mission.enemyCount = 0 →
      ∃ out, calculateBattleOutcome squadron pilots mission tactic rng = some out ∧
        out.events = [] ∧ out.results.destroyedEnemy = 0 ∧
        out.results.enemiesEscaped = 0 ∧ out.results.survivingEnemy = 0) ∧
    (squadron = [] →
      ∃ out, calculateBattleOutcome squadron pilots mission tactic rng = some out ∧
        out.events = []) := by
  constructor
  · intro hcount
    refine ⟨{ events := []
              results := calculateResultsFromEvents squadron mission []
                (decide (calculateSquadronPower squadron pilots * tacticModifier tactic >
                  calculateEnemyPower mission)) }, ?_, rfl, ?_, ?_, ?_⟩
    · simp only [calculateBattleOutcome]
      rw [generateBattleEvents_enemyCount_zero squadron pilots mission _ rng hcount]
    · simp [calculateResultsFromEvents]
    · simp [calculateResultsFromEvents]
    · simp [calculateResultsFromEvents, hcount]
  · intro hsq
    subst hsq
    refine ⟨{ events := []
              results := calculateResultsFromEvents [] mission []
                (decide (calculateSquadronPower [] pilots * tacticModifier tactic >
                  calculateEnemyPower mission)) }, ?_, rfl⟩
    simp only [calculateBattleOutcome]
    rw [generateBattleEvents_squadron_nil pilots mission _ rng]

def c8Mission : Mission :=
  { enemyCount := 0
    enemyStats := { weaponStrength := 1, speed := 1, agility := 1, intelligence := 1, endurance := 1 }
    rewards := { credits := 10, researchPoints := 10, highScoreBonus := 10 } }

def c8Jet : FighterJet :=
  { id := "jet-1"
    computedStats := { weaponStrength := 10, speed := 5, agility := 5 }
    assignedPilotId := some "p1" }

def c8Pilot : Pilot := { id := "p1", intelligence := 50, endurance := 50 }

/-- Witness for C8 at a concrete zero-enemy mission. -/
theorem c8_degenerate_inputs_witness :
    c8Mission.enemyCount = 0 ∧
    (∃ out, calculateBattleOutcome [c8Jet] [c8Pilot] c8Mission .aggressive c2Rng = some out ∧
      out.events = [] ∧ out.results.destroyedEnemy = 0 ∧
      out.results.enemiesEscaped = 0 ∧ out.results.survivingEnemy = 0) :=
  ⟨rfl, (c8_degenerate_inputs [c8Jet] [c8Pilot] c8Mission .aggressive c2Rng).1 rfl⟩

-- ====================================================================================
-- C9
-- ====================================================================================

/-- C9: for every battle-results record the generator produces (from any event list
whatsoever), per-side conservation holds: surviving + destroyed (+ escaped) equals
the side's initial unit count — squadron length for the allied side (which has no
escape channel), `mission.enemyCount` for the enemy side. -/
theorem c9_conservation (squadron : List FighterJet) (mission : Mission)
    (events : List BattleEvent) (alliedWins : Bool) :
    (calculateResultsFromEvents squadron mission events alliedWins).survivingAllied +
      (calculateResultsFromEvents squadron mission events alliedWins).destroyedAllied
      = (squadron.length : ℚ) ∧
    (calculateResultsFromEvents squadron mission events alliedWins).survivingEnemy +
      (calculateResultsFromEvents squadron mission events alliedWins).destroyedEnemy +
      (calculateResultsFromEvents squadron mission events alliedWins).enemiesEscaped
      = (mission.enemyCount : ℚ) := by
  constructor
  · simp only [calculateResultsFromEvents]
    ring
  · simp only [calculateResultsFromEvents]
    ring

-- ====================================================================================
-- Real-time simulation (src/hooks/useBattleSimulation.ts, scripted-event version)
-- ====================================================================================

-- Simulation constants (lines 8-42)
def RESPAWN_TIME : ℚ := 500005000
def JET_SPEED : ℚ := 35
def TURN_SPEED : ℚ := 9/5
def WORLD_RADIUS : ℚ := 120
def TRACER_SPEED : ℚ := 150
def TRACER_LIFESPAN : ℚ := 2
def FIRING_COOLDOWN : ℚ := 3
def BURST_COUNT : ℚ := 3
def TRACERS_PER_BURST : ℚ := 5
def TIME_BETWEEN_TRACERS : ℚ := 6/100
def TIME_BETWEEN_BURSTS : ℚ := 3/10
def GREEN_COHESION_RADIUS : ℚ := 40
def GREEN_COHESION_STRENGTH : ℚ := 3/10
def GREEN_AVOIDANCE_RADIUS : ℚ := 15
def GREEN_AVOIDANCE_STRENGTH : ℚ := 3/2
def FIRING_CONE_DOT_PRODUCT : ℚ := 97/100
def GREEN_TARGET_SWAP_TIME : Int := 10
def MISSILE_SPEED : ℚ := 100
def MISSILE_LIFESPAN : ℚ := 5
def MISSILE_PROXIMITY_DETONATION_RANGE : ℚ := 10
def LEAD_TARGET_DISTANCE : ℚ := 10
def MISSILE_TURN_SPEED : ℚ := 3
def FLARE_LIFESPAN : ℚ := 3
def FLARE_EJECTION_SPEED : ℚ := 15
def FLARES_TO_DEPLOY : ℚ := 6
def TIME_BETWEEN_FLARE_PAIRS : ℚ := 1/5
def FLARE_DRAG : ℚ := 1/2
def FLARE_WING_OFFSET : ℚ := 3
def WEAPON_RANGE_THRESHOLD : ℚ := 60
def DISENGAGE_DELAY : ℚ := 2000
def DISENGAGE_DURATION : ℚ := 5000
def CINEMATIC_WINDOW : ℚ := 3000
def TICK_DELTA : ℚ := 16/1000

-- Exact 3D vector / quaternion arithmetic (THREE.js operations that are polynomial
-- in the coordinates are translated exactly over ℚ)

structure Vec3 where
  x : ℚ
  y : ℚ
  z : ℚ
deriving Repr, DecidableEq

structure Quat where
  x : ℚ
  y : ℚ
  z : ℚ
  w : ℚ
deriving Repr, DecidableEq

def vadd (a b : Vec3) : Vec3 := ⟨a.x + b.x, a.y + b.y, a.z + b.z⟩
def vsub (a b : Vec3) : Vec3 := ⟨a.x - b.x, a.y - b.y, a.z - b.z⟩
def smul (c : ℚ) (v : Vec3) : Vec3 := ⟨c * v.x, c * v.y, c * v.z⟩
def vneg (v : Vec3) : Vec3 := ⟨-v.x, -v.y, -v.z⟩
def vdot (a b : Vec3) : ℚ := a.x * b.x + a.y * b.y + a.z * b.z
def vcross (a b : Vec3) : Vec3 :=
  ⟨a.y * b.z - a.z * b.y, a.z * b.x - a.x * b.z, a.x * b.y - a.y * b.x⟩
def lengthSq (v : Vec3) : ℚ := vdot v v

/-- Squared distance; every `distanceTo` COMPARISON in the source is translated as the
equivalent comparison of squares (`d < c ↔ d² < c²` for the nonnegative reals). -/
def distSq (a b : Vec3) : ℚ := lengthSq (vsub a b)

/-- `Vector3.lerp(target, alpha)`. -/
def vlerp (a b : Vec3) (alpha : ℚ) : Vec3 := vadd a (smul alpha (vsub b a))

/-- `Vector3.applyQuaternion` — polynomial in the coordinates, hence exact. -/
def applyQuaternion (q : Quat) (v : Vec3) : Vec3 :=
  let u : Vec3 := ⟨q.x, q.y, q.z⟩
  let t := smul 2 (vcross u v)
  vadd v (vadd (smul q.w t) (vcross u t))

def quatMul (a b : Quat) : Quat :=
  ⟨a.w * b.x + a.x * b.w + a.y * b.z - a.z * b.y,
   a.w * b.y - a.x * b.z + a.y * b.w + a.z * b.x,
   a.w * b.z + a.x * b.y - a.y * b.x + a.z * b.w,
   a.w * b.w - a.x * b.x - a.y * b.y - a.z * b.z⟩

/-- Oracle for the THREE.js primitives that are NOT expressible in exact rational
arithmetic (they need square roots or trigonometry): `normalize`, `distanceTo` as a
value, `Matrix4.lookAt` + `setFromRotationMatrix`, `Quaternion.slerp`,
`setFromUnitVectors`, `setFromEuler`, `Quaternion.normalize`, and `Math.cos/sin/PI`
(used only by respawn).  All simulation theorems quantify over an arbitrary oracle,
so they hold for the real-valued primitives in particular. -/
structure Geo where
  normalize : Vec3 → Vec3
  dist : Vec3 → Vec3 → ℚ
  lookAtQuat : Vec3 → Vec3 → Vec3 → Quat
  slerp : Quat → Quat → ℚ → Quat
  unitVecsQuat : Vec3 → Vec3 → Quat
  eulerQuat : Vec3 → Quat
  quatNormalize : Quat → Quat
  cosine : ℚ → ℚ
  sine : ℚ → ℚ
  jsPI : ℚ

inductive Status
  | preparing
  | active
  | disengaging
  | victory
  | defeat
deriving Repr, DecidableEq

inductive AiState
  | attacking
  | following
deriving Repr, DecidableEq

structure BurstState where
  active : Bool
  burstsLeft : ℚ
  tracersLeftInBurst : ℚ
  nextShotTimer : ℚ
  isKillShot : Bool
deriving Repr, DecidableEq

structure FlareDeploymentState where
  deploying : Bool
  flaresLeft : ℚ
  nextFlareTimer : ℚ
deriving Repr, DecidableEq

/-- `BattleEntity` with the fields the simulation tick reads or writes
(`originalJetId`, `killCount`, `roleChangeTimer`, `behaviorState`, `behaviorTimer`
are dead weight for the tick and omitted). -/
structure Jet where
  id : String
  team : Team
  health : ℚ
  maxHealth : ℚ
  position : Vec3
  velocity : Vec3
  quaternion : Quat
  targetId : Option String
  partnerId : Option String
  weaponStrength : ℚ
  speed : ℚ
  agility : ℚ
  intelligence : ℚ
  endurance : ℚ
  isDestroyed : Bool
  isWrecked : Bool
  destroyedAt : Option ℚ
  isEscaping : Bool
  aiState : AiState
  disengagementAltitude : Option ℚ
  fireCooldown : ℚ
  burstState : BurstState
  flareState : FlareDeploymentState
  wreckageAngularVelocity : Option Vec3
  cinematicKillTargetId : Option String
  isTargetOfCinematicKill : Bool
deriving Repr, DecidableEq

structure Missile where
  id : String
  position : Vec3
  velocity : Vec3
  quaternion : Quat
  life : ℚ
  targetId : Option String
  willDetonate : Bool
deriving Repr, DecidableEq

structure Tracer where
  id : String
  position : Vec3
  velocity : Vec3
  quaternion : Quat
  life : ℚ
deriving Repr, DecidableEq

structure Flare where
  id : String
  position : Vec3
  velocity : Vec3
  life : ℚ
deriving Repr, DecidableEq

/-- `BattleState` (per combat.types.ts plus the two derived clock fields the
scripted-event hook stores on it). -/
structure SimState where
  status : Status
  startTime : ℚ
  endTime : Option ℚ
  disengageTime : ℚ
  battleEndTime : ℚ
  alliedJets : List Jet
  enemyJets : List Jet
  playerTactic : Tactic
  scheduledEvents : List BattleEvent
  executedEvents : List BattleEvent
  tracers : List Tracer
  missiles : List Missile
  flares : List Flare
  results : Option BattleResults
deriving Repr, DecidableEq

/-- `prev.results?.victory` with JS optional chaining: a missing record is falsy. -/
def victoryFlag (s : SimState) : Bool :=
  match s.results with
  | some r => r.victory
  | none => false

/-- `forceEndBattle` (lines 932-940): no terminal-phase guard — it always overwrites
`status` with the decided terminal phase and `endTime` with the invocation time. -/
def forceEndBattle (now : ℚ) (s : SimState) : SimState :=
  { s with
    status := if victoryFlag s then .victory else .defeat
    endTime := some now }

-- ------------------------------------------------------------------------------------
-- Battle clock initialisation (initializeBattle, lines 63-75)
-- ------------------------------------------------------------------------------------

/-- `[...events].filter(destroy).sort((a, b) => b.timestamp - a.timestamp)[0]`:
the destroy events sorted by descending timestamp (stable), first taken. -/
def lastDestroyEvent (events : List BattleEvent) : Option BattleEvent :=
  ((events.filter (fun e => e.type == .destroy)).mergeSort
    (fun a b => b.timestamp ≤ a.timestamp)).head?

/-- `disengageTime`: `min(lastKillTime + DISENGAGE_DELAY, BATTLE_DURATION -
DISENGAGE_DELAY)`; with no destroy event `lastKillTime` is `Infinity` and the
minimum is the timeout-triggered time. -/
def disengageTimeOf (events : List BattleEvent) : ℚ :=
  match lastDestroyEvent events with
  | some e => min (e.timestamp + DISENGAGE_DELAY) (BATTLE_DURATION - DISENGAGE_DELAY)
  | none => BATTLE_DURATION - DISENGAGE_DELAY

def battleEndTimeOf (events : List BattleEvent) : ℚ :=
  disengageTimeOf events + DISENGAGE_DURATION

lemma sorted_mergeSort_byTimestampDesc (l : List BattleEvent) :
    List.Sorted (fun a b : BattleEvent => b.timestamp ≤ a.timestamp)
      (l.mergeSort (fun a b => b.timestamp ≤ a.timestamp)) := by
  have := @List.sorted_mergeSort BattleEvent
    (fun a b => decide (b.timestamp ≤ a.timestamp))
    (fun a b c hab hbc => by
      simp only [decide_eq_true_eq] at hab hbc ⊢
      exact le_trans hbc hab)
    (fun a b => by
      simpa using le_total b.timestamp a.timestamp)
    l
  simpa [List.Sorted] using this

lemma lastDestroyEvent_spec (events : List BattleEvent) (e : BattleEvent)
    (h : lastDestroyEvent events = some e) :
    e ∈ events ∧ e.type = .destroy ∧
      ∀ f ∈ events, f.type = .destroy → f.timestamp ≤ e.timestamp := by
  unfold lastDestroyEvent at h
  have hperm := List.mergeSort_perm (events.filter (fun x => x.type == .destroy))
    (fun a b => b.timestamp ≤ a.timestamp)
  have hsorted := sorted_mergeSort_byTimestampDesc (events.filter (fun x => x.type == .destroy))
  cases hms : (events.filter (fun x => x.type == .destroy)).mergeSort
      (fun a b => b.timestamp ≤ a.timestamp) with
  | nil => rw [hms] at h; exact absurd h (by simp)
  | cons a tl =>
    rw [hms] at h hperm hsorted
    simp only [List.head?_cons, Option.some.injEq] at h
    subst h
    have hmem : a ∈ events.filter (fun x => x.type == .destroy) :=
      hperm.mem_iff.mp (List.mem_cons_self _ _)
    have he1 : a ∈ events := (List.mem_filter.mp hmem).1
    have he2 : a.type = .destroy := by
      have := (List.mem_filter.mp hmem).2
      simpa using this
    refine ⟨he1, he2, ?_⟩
    intro f hf hfd
    have hfmem : f ∈ events.filter (fun x => x.type == .destroy) :=
      List.mem_filter.mpr ⟨hf, by simp [hfd]⟩
    have hfc : f ∈ a :: tl := hperm.mem_iff.mpr hfmem
    rcases List.mem_cons.mp hfc with heq | htl
    · rw [heq]
    · exact List.rel_of_sorted_cons hsorted f htl

lemma lastDestroyEvent_none (events : List BattleEvent)
    (h : lastDestroyEvent events = none) :
    ∀ f ∈ events, f.type ≠ .destroy := by
  unfold lastDestroyEvent at h
  intro f hf hfd
  have hfmem : f ∈ events.filter (fun x => x.type == .destroy) :=
    List.mem_filter.mpr ⟨hf, by simp [hfd]⟩
  have hperm := List.mergeSort_perm (events.filter (fun x => x.type == .destroy))
    (fun a b => b.timestamp ≤ a.timestamp)
  have hin := hperm.mem_iff.mpr hfmem
  cases hms : (events.filter (fun x => x.type == .destroy)).mergeSort
      (fun a b => b.timestamp ≤ a.timestamp) with
  | nil => rw [hms] at hin; exact absurd hin (List.not_mem_nil f)
  | cons a tl => rw [hms] at h; exact absurd h (by simp)

-- ------------------------------------------------------------------------------------
-- Scheduled-event execution (lines 252-284)
-- ------------------------------------------------------------------------------------

/-- `j.id === jet.targetId` and friends: comparison of a `string | null` field with a
jet id (`null` matches nothing). -/
def idMatches (o : Option String) (id : String) : Bool :=
  match o with
  | some t => id == t
  | none => false

/-- The forced guaranteed-hit missile a due destroy event launches (lines 260-281):
built only when BOTH the named attacker and the named target are found un-wrecked. -/
def forcedMissileOf (geo : Geo) (jets : List Jet) (now : ℚ) (event : BattleEvent) :
    Option Missile :=
  if event.type == .destroy then
    match jets.find? (fun j => j.id == event.attackerId && !j.isWrecked),
          jets.find? (fun j => j.id == event.targetId && !j.isWrecked) with
    | some attacker, some target =>
      let fireDirection := applyQuaternion attacker.quaternion ⟨0, 0, 1⟩
      let missileVelocity := smul MISSILE_SPEED fireDirection
      let finalVelocity := vadd attacker.velocity missileVelocity
      let missileQuaternion := geo.unitVecsQuat ⟨0, 1, 0⟩ (geo.normalize finalVelocity)
      some { id := s!"m_forced_{attacker.id}_{now}"
             position := attacker.position
             velocity := finalVelocity
             quaternion := missileQuaternion
             life := MISSILE_LIFESPAN
             targetId := some target.id
             willDetonate := true }
    | _, _ => none
  else none

structure ExecOut where
  jets : List Jet
  newExecuted : List BattleEvent
  missiles : List Missile
deriving Repr, DecidableEq

/-- The per-tick scheduled-event pass: every due event not in the persistent executed
set is pushed onto `newExecutedEvents`; a due destroy event with attacker and target
alive additionally pushes its forced missile.  Entities are only read. -/
def execStep (geo : Geo) (jets : List Jet) (scheduled executed : List BattleEvent)
    (elapsed now : ℚ) (missiles : List Missile) : ExecOut :=
  scheduled.foldl (fun acc event =>
    if decide (event.timestamp ≤ elapsed) && !(executed.contains event) then
      { acc with
        newExecuted := acc.newExecuted ++ [event]
        missiles :=
          match forcedMissileOf geo acc.jets now event with
          | some m => acc.missiles ++ [m]
          | none => acc.missiles }
    else acc) { jets := jets, newExecuted := [], missiles := missiles }

lemma execStep_aux (geo : Geo) (executed : List BattleEvent) (elapsed now : ℚ) :
    ∀ (scheduled : List BattleEvent) (acc : ExecOut),
      scheduled.foldl (fun acc event =>
        if decide (event.timestamp ≤ elapsed) && !(executed.contains event) then
          { acc with
            newExecuted := acc.newExecuted ++ [event]
            missiles :=
              match forcedMissileOf geo acc.jets now event with
              | some m => acc.missiles ++ [m]
              | none => acc.missiles }
        else acc) acc =
      { jets := acc.jets
        newExecuted := acc.newExecuted ++ scheduled.filter
          (fun e => decide (e.timestamp ≤ elapsed) && !(executed.contains e))
        missiles := acc.missiles ++ (scheduled.filter
          (fun e => decide (e.timestamp ≤ elapsed) && !(executed.contains e))).filterMap
            (forcedMissileOf geo acc.jets now) } := by
  intro scheduled
  induction scheduled with
  | nil => intro acc; simp
  | cons e rest ih =>
    intro acc
    by_cases h1 : e.timestamp ≤ elapsed
    · by_cases h2 : e ∈ executed
      · simp only [List.foldl_cons, List.filter_cons]
        rw [ih]
        simp [h1, h2]
      · simp only [List.foldl_cons, List.filter_cons]
        cases hm : forcedMissileOf geo acc.jets now e with
        | none =>
          rw [ih]
          simp [h1, h2, hm]
        | some m =>
          rw [ih]
          simp [h1, h2, hm]
    · simp only [List.foldl_cons, List.filter_cons]
      rw [ih]
      simp [h1]

/-- Closed form of `execStep`. -/
lemma execStep_spec (geo : Geo) (jets : List Jet) (scheduled executed : List BattleEvent)
    (elapsed now : ℚ) (missiles : List Missile) :
    execStep geo jets scheduled executed elapsed now missiles =
      { jets := jets
        newExecuted := scheduled.filter
          (fun e => decide (e.timestamp ≤ elapsed) && !(executed.contains e))
        missiles := missiles ++ (scheduled.filter
          (fun e => decide (e.timestamp ≤ elapsed) && !(executed.contains e))).filterMap
            (forcedMissileOf geo jets now) } := by
  unfold execStep
  rw [execStep_aux]
  simp

-- ====================================================================================
-- C10
-- ====================================================================================

/-- C10: frame property of the per-tick scheduled-event pass.  The pass changes no
entity field (in particular an executed escape event never sets `isEscaping`) and
spawns no projectile except via `forcedMissileOf`; every due not-yet-executed event —
of any type — is consumed into the newly-executed list; `forcedMissileOf` yields a
missile only for destroy events whose named attacker AND named target are both found
un-wrecked (the missile has `willDetonate = true` and targets the scripted target),
and yields nothing — while the event is still consumed — otherwise. -/
theorem c10_scheduled_event_frame (geo : Geo) (jets : List Jet)
    (scheduled executed : List BattleEvent) (elapsed now : ℚ) (missiles : List Missile) :
    (execStep geo jets scheduled executed elapsed now missiles).jets = jets ∧
    (execStep geo jets scheduled executed elapsed now missiles).newExecuted =
      scheduled.filter (fun e => decide (e.timestamp ≤ elapsed) && !(executed.contains e)) ∧
    (execStep geo jets scheduled executed elapsed now missiles).missiles =
      missiles ++ (scheduled.filter
        (fun e => decide (e.timestamp ≤ elapsed) && !(executed.contains e))).filterMap
          (forcedMissileOf geo jets now) ∧
    (∀ e : BattleEvent, e.type ≠ .destroy → forcedMissileOf geo jets now e = none) ∧
    (∀ e : BattleEvent, (jets.find? (fun j => j.id == e.attackerId && !j.isWrecked)).isNone ∨
        (jets.find? (fun j => j.id == e.targetId && !j.isWrecked)).isNone →
      forcedMissileOf geo jets now e = none) ∧
    (∀ e : BattleEvent, ∀ a t : Jet, e.type = .destroy →
      jets.find? (fun j => j.id == e.attackerId && !j.isWrecked) = some a →
      jets.find? (fun j => j.id == e.targetId && !j.isWrecked) = some t →
      ∃ m, forcedMissileOf geo jets now e = some m ∧
        m.willDetonate = true ∧ m.targetId = some t.id ∧ m.position = a.position) := by
  rw [execStep_spec]
  refine ⟨rfl, rfl, rfl, ?_, ?_, ?_⟩
  · intro e he
    unfold forcedMissileOf
    rw [if_neg (by simpa using he)]
  · intro e he
    unfold forcedMissileOf
    rcases he with h | h
    · cases hfa : jets.find? (fun j => j.id == e.attackerId && !j.isWrecked) with
      | none => cases hft : jets.find? (fun j => j.id == e.targetId && !j.isWrecked) <;>
          simp [hfa, hft]
      | some a => rw [hfa] at h; exact absurd h (by simp)
    · cases hft : jets.find? (fun j => j.id == e.targetId && !j.isWrecked) with
      | none => cases hfa : jets.find? (fun j => j.id == e.attackerId && !j.isWrecked) <;>
          simp [hfa, hft]
      | some t => rw [hft] at h; exact absurd h (by simp)
  · intro e a t htype ha ht
    refine ⟨{ id := s!"m_forced_{a.id}_{now}"
              position := a.position
              velocity := vadd a.velocity
                (smul MISSILE_SPEED (applyQuaternion a.quaternion ⟨0, 0, 1⟩))
              quaternion := geo.unitVecsQuat ⟨0, 1, 0⟩ (geo.normalize (vadd a.velocity
                (smul MISSILE_SPEED (applyQuaternion a.quaternion ⟨0, 0, 1⟩))))
              life := MISSILE_LIFESPAN
              targetId := some t.id
              willDetonate := true }, ?_, rfl, rfl, rfl⟩
    unfold forcedMissileOf
    rw [if_pos (by simp [htype]), ha, ht]

/-- A fixed concrete interpretation of the real-valued geometric primitives, used
only to instantiate oracle-polymorphic theorems at concrete inputs. -/
def cGeo : Geo :=
  { normalize := fun v => v
    dist := fun _ _ => 0
    lookAtQuat := fun _ _ _ => ⟨0, 0, 0, 1⟩
    slerp := fun q _ _ => q
    unitVecsQuat := fun _ _ => ⟨0, 0, 0, 1⟩
    eulerQuat := fun _ => ⟨0, 0, 0, 1⟩
    quatNormalize := fun q => q
    cosine := fun _ => 1
    sine := fun _ => 0
    jsPI := 355/113 }

/-- Concrete-test fixture: a live jet with default kinematic and weapon state. -/
def baseJet (id : String) (team : Team) : Jet :=
  { id := id
    team := team
    health := 100
    maxHealth := 100
    position := ⟨0, 0, 0⟩
    velocity := ⟨0, 0, 0⟩
    quaternion := ⟨0, 0, 0, 1⟩
    targetId := none
    partnerId := none
    weaponStrength := 10
    speed := 5
    agility := 5
    intelligence := 50
    endurance := 50
    isDestroyed := false
    isWrecked := false
    destroyedAt := none
    isEscaping := false
    aiState := .attacking
    disengagementAltitude := none
    fireCooldown := 1
    burstState := { active := false, burstsLeft := 0, tracersLeftInBurst := 0, nextShotTimer := 0, isKillShot := false }
    flareState := { deploying := false, flaresLeft := 0, nextFlareTimer := 0 }
    wreckageAngularVelocity := none
    cinematicKillTargetId := none
    isTargetOfCinematicKill := false }

def c10Hit : BattleEvent :=
  { timestamp := 5000, type := .hit, attackerId := "allied-0", targetId := "enemy-0"
    damage := some 20 }

def c10Jets : List Jet := [baseJet "allied-0" .allied, baseJet "enemy-0" .enemy]

/-- Witness for C10: a due hit event is consumed into the executed list, the jets are
untouched and no missile is spawned. -/
theorem c10_scheduled_event_frame_witness :
    (execStep cGeo c10Jets [c10Hit] [] 6000 6000 []).jets = c10Jets ∧
    (execStep cGeo c10Jets [c10Hit] [] 6000 6000 []).newExecuted = [c10Hit] ∧
    (execStep cGeo c10Jets [c10Hit] [] 6000 6000 []).missiles = [] := by
  have h := c10_scheduled_event_frame cGeo c10Jets [c10Hit] [] 6000 6000 []
  have hts : (decide (c10Hit.timestamp ≤ (6000:ℚ)) &&
      !(([] : List BattleEvent).contains c10Hit)) = true := by
    norm_num [c10Hit]
  have hfilter : List.filter
      (fun e => decide (e.timestamp ≤ (6000:ℚ)) && !(([] : List BattleEvent).contains e))
      [c10Hit] = [c10Hit] := by
    simp only [List.filter_cons, List.filter_nil, hts, if_pos]
  have hnone := h.2.2.2.1 c10Hit (by simp [c10Hit])
  refine ⟨h.1, ?_, ?_⟩
  · rw [h.2.1, hfilter]
  · rw [h.2.2.1, hfilter]
    simp [List.filterMap_cons, hnone]

-- ====================================================================================
-- C1
-- ====================================================================================

def c1Attacker : Jet := { baseJet "allied-0" .allied with isWrecked := true, destroyedAt := some 1000 }
def c1Target : Jet := baseJet "enemy-0" .enemy
def c1Jets : List Jet := [c1Attacker, c1Target]
def c1Event : BattleEvent :=
  { timestamp := 5000, type := .destroy, attackerId := "allied-0", targetId := "enemy-0"
    damage := some 100 }

/-- C1 counterexample: at this concrete tick the scripted destroy event's timestamp
has been reached, the scripted target is not yet wrecked — exactly the claim's
enforcement trigger — but the scripted ATTACKER is already wrecked, so the
scheduled-event pass launches NO guaranteed-hit missile: the event is silently
consumed, no missile exists, the jets are unchanged, and nothing will ever wreck
the target.  This contradicts the claimed unconditional deadline enforcement and
the claimed wreck guarantee. -/
theorem c1_counterexample :
    c1Event.timestamp ≤ 6000 ∧
    c1Jets.find? (fun j => j.id == c1Event.targetId && !j.isWrecked) = some c1Target ∧
    (execStep cGeo c1Jets [c1Event] [] 6000 6000 []).newExecuted = [c1Event] ∧
    (execStep cGeo c1Jets [c1Event] [] 6000 6000 []).missiles = [] ∧
    (execStep cGeo c1Jets [c1Event] [] 6000 6000 []).jets = c1Jets := by
  have hts : (decide (c1Event.timestamp ≤ (6000:ℚ)) &&
      !(([] : List BattleEvent).contains c1Event)) = true := by
    norm_num [c1Event]
  have hfilter : List.filter
      (fun e => decide (e.timestamp ≤ (6000:ℚ)) && !(([] : List BattleEvent).contains e))
      [c1Event] = [c1Event] := by
    simp only [List.filter_cons, List.filter_nil, hts, if_pos]
  have hfa : c1Jets.find? (fun j => j.id == c1Event.attackerId && !j.isWrecked) = none := by
    simp [c1Jets, c1Attacker, c1Target, baseJet, c1Event, List.find?]
  have hnone : forcedMissileOf cGeo c1Jets 6000 c1Event = none := by
    unfold forcedMissileOf
    rw [if_pos (by simp [c1Event]), hfa]
  refine ⟨by norm_num [c1Event], ?_, ?_, ?_, ?_⟩
  · simp [c1Jets, c1Attacker, c1Target, baseJet, c1Event, List.find?]
  · rw [execStep_spec, hfilter]
  · rw [execStep_spec]
    simp only [hfilter, List.filterMap_cons, List.filterMap_nil, hnone, List.nil_append]
  · rw [execStep_spec]

/-- C1 (amended): when a scripted destroy event's timestamp is reached, the event not
yet executed, and BOTH the scripted attacker and the scripted target are still
un-wrecked, the scheduled-event pass launches the guaranteed-hit missile
(`willDetonate = true`) from the attacker's position directly at the scripted
target, bypassing all range and firing-cone checks; if the attacker (or target) is
already wrecked the event is consumed with no enforcement, so the wreck guarantee
holds only for events whose attacker is alive at the deadline. -/
theorem c1_amended_deadline (geo : Geo) (jets : List Jet)
    (scheduled executed : List BattleEvent) (elapsed now : ℚ) (missiles : List Missile)
    (event : BattleEvent) (a t : Jet)
    (hmem : event ∈ scheduled) (hdue : event.timestamp ≤ elapsed)
    (hnotex : event ∉ executed)
    (htype : event.type = .destroy)
    (ha : jets.find? (fun j => j.id == event.attackerId && !j.isWrecked) = some a)
    (ht : jets.find? (fun j => j.id == event.targetId && !j.isWrecked) = some t) :
    event ∈ (execStep geo jets scheduled executed elapsed now missiles).newExecuted ∧
    ∃ m ∈ (execStep geo jets scheduled executed elapsed now missiles).missiles,
      m.willDetonate = true ∧ m.targetId = some t.id ∧ m.position = a.position := by
  rw [execStep_spec]
  have hfilter : event ∈ scheduled.filter
      (fun e => decide (e.timestamp ≤ elapsed) && !(executed.contains e)) :=
    List.mem_filter.mpr ⟨hmem, by simp [hdue, hnotex]⟩
  have hfm : ∃ m, forcedMissileOf geo jets now event = some m ∧
      m.willDetonate = true ∧ m.targetId = some t.id ∧ m.position = a.position := by
    refine ⟨{ id := s!"m_forced_{a.id}_{now}"
              position := a.position
              velocity := vadd a.velocity
                (smul MISSILE_SPEED (applyQuaternion a.quaternion ⟨0, 0, 1⟩))
              quaternion := geo.unitVecsQuat ⟨0, 1, 0⟩ (geo.normalize (vadd a.velocity
                (smul MISSILE_SPEED (applyQuaternion a.quaternion ⟨0, 0, 1⟩))))
              life := MISSILE_LIFESPAN
              targetId := some t.id
              willDetonate := true }, ?_, rfl, rfl, rfl⟩
    unfold forcedMissileOf
    rw [if_pos (by simp [htype]), ha, ht]
  obtain ⟨m, hm, hm1, hm2, hm3⟩ := hfm
  exact ⟨hfilter, m, List.mem_append_right _ (List.mem_filterMap.mpr ⟨event, hfilter, hm⟩),
    hm1, hm2, hm3⟩

def c1LiveAttacker : Jet := baseJet "allied-0" .allied

/-- Witness for the amended C1: with the attacker alive, the forced missile is there. -/
theorem c1_amended_deadline_witness :
    c1Event ∈ (execStep cGeo [c1LiveAttacker, c1Target] [c1Event] [] 6000 6000 []).newExecuted ∧
    ∃ m ∈ (execStep cGeo [c1LiveAttacker, c1Target] [c1Event] [] 6000 6000 []).missiles,
      m.willDetonate = true ∧ m.targetId = some c1Target.id ∧
      m.position = c1LiveAttacker.position :=
  c1_amended_deadline cGeo [c1LiveAttacker, c1Target] [c1Event] [] 6000 6000 [] c1Event
    c1LiveAttacker c1Target (List.mem_singleton.mpr rfl) (by norm_num [c1Event])
    (List.not_mem_nil c1Event) rfl
    (by simp [c1LiveAttacker, c1Target, c1Event, baseJet, List.find?])
    (by simp [c1LiveAttacker, c1Target, c1Event, baseJet, List.find?])

-- ====================================================================================
-- C6
-- ====================================================================================

def c6Results : BattleResults :=
  { victory := true
    survivingAllied := 2
    destroyedAllied := 0
    survivingEnemy := 0
    destroyedEnemy := 2
    enemiesEscaped := 0
    duration := 30000
    rewardsCredits := 100
    rewardsResearchPoints := 10
    rewardsHighScoreBonus := 5
    pilotStats := [] }

def c6State : SimState :=
  { status := .victory
    startTime := 0
    endTime := some 5
    disengageTime := 21500
    battleEndTime := 26500
    alliedJets := []
    enemyJets := []
    playerTactic := .aggressive
    scheduledEvents := []
    executedEvents := []
    tracers := []
    missiles := []
    flares := []
    results := some c6Results }

/-- C6 counterexample: `forceEndBattle` has no terminal-phase guard; invoked on this
already-terminal state it overwrites `endTime` with the invocation time (7 ≠ 5), so
the state is NOT identical before and after the call. -/
theorem c6_counterexample :
    (c6State.status = .victory ∨ c6State.status = .defeat) ∧
    forceEndBattle 7 c6State ≠ c6State := by
  refine ⟨Or.inl rfl, ?_⟩
  intro h
  have hend := congrArg SimState.endTime h
  simp only [forceEndBattle, c6State, Option.some.injEq] at hend
  norm_num at hend

/-- C6 (amended): `forceEndBattle` always sets the phase to the decided terminal phase
(victory iff the pre-computed results decided victory, defeat otherwise, including
when results are absent) and leaves entities, script, executed events and all effect
collections unchanged — but it unconditionally overwrites `endTime` with the
invocation time.  Invoked on a terminal state whose phase agrees with the decided
result (the only terminal states this system creates), the call changes nothing
except `endTime`. -/
theorem c6_amended_force_end (s : SimState) (now : ℚ) :
    ((forceEndBattle now s).status =
        (if victoryFlag s then Status.victory else Status.defeat) ∧
      (forceEndBattle now s).endTime = some now ∧
      (forceEndBattle now s).alliedJets = s.alliedJets ∧
      (forceEndBattle now s).enemyJets = s.enemyJets ∧
      (forceEndBattle now s).scheduledEvents = s.scheduledEvents ∧
      (forceEndBattle now s).executedEvents = s.executedEvents ∧
      (forceEndBattle now s).tracers = s.tracers ∧
      (forceEndBattle now s).missiles = s.missiles ∧
      (forceEndBattle now s).flares = s.flares ∧
      (forceEndBattle now s).results = s.results) ∧
    ((s.status = .victory ∨ s.status = .defeat) →
      s.status = (if victoryFlag s then Status.victory else Status.defeat) →
      forceEndBattle now s = { s with endTime := some now }) := by
  refine ⟨⟨rfl, rfl, rfl, rfl, rfl, rfl, rfl, rfl, rfl, rfl⟩, ?_⟩
  intro _ h2
  simp [forceEndBattle, ← h2]

/-- Witness for the amended C6 at the concrete terminal state. -/
theorem c6_amended_force_end_witness :
    ((forceEndBattle 7 c6State).status =
        (if victoryFlag c6State then Status.victory else Status.defeat)) ∧
    forceEndBattle 7 c6State = { c6State with endTime := some 7 } :=
  ⟨(c6_amended_force_end c6State 7).1.1,
   (c6_amended_force_end c6State 7).2 (Or.inl rfl) rfl⟩

-- ------------------------------------------------------------------------------------
-- Missile detonation & wreckage creation (lines 287-348)
-- ------------------------------------------------------------------------------------

/-- First-match in-place update of a jet by id (JS mutates the found object). -/
def setJetById (jets : List Jet) (id : String) (f : Jet → Jet) : List Jet :=
  match jets with
  | [] => []
  | j :: rest => if j.id == id then f j :: rest else j :: setJetById rest id f

structure DetOut where
  missiles : List Missile
  destroyedJetIds : List String
deriving Repr, DecidableEq

/-- Per-missile outcome of the detonation filter (lines 289-302): left, the id the
missile destroys (a `willDetonate` missile within the proximity radius of a living
target; the missile is consumed); right, the surviving missile (disarmed —
`targetId := none` — if it was a dud in proximity). -/
def detOutcome (jets : List Jet) (missile : Missile) : Option String × Option Missile :=
  match jets.find? (fun j =>
      idMatches missile.targetId j.id && !j.isWrecked && !j.isDestroyed) with
  | some targetJet =>
    if distSq missile.position targetJet.position <
        MISSILE_PROXIMITY_DETONATION_RANGE * MISSILE_PROXIMITY_DETONATION_RANGE then
      if missile.willDetonate then (some targetJet.id, none)
      else (none, some { missile with targetId := none })
    else (none, some missile)
  | none => (none, some missile)

/-- `Set.add` of the source's `destroyedJetIds`. -/
def insertUnique (l : List String) (x : String) : List String :=
  if l.contains x then l else l ++ [x]

def detonationFilter (jets : List Jet) (missiles : List Missile) : DetOut :=
  missiles.foldl (fun acc missile =>
    let oc := detOutcome jets missile
    { missiles :=
        match oc.2 with
        | some m => acc.missiles ++ [m]
        | none => acc.missiles
      destroyedJetIds :=
        match oc.1 with
        | some id => insertUnique acc.destroyedJetIds id
        | none => acc.destroyedJetIds })
    { missiles := [], destroyedJetIds := [] }

/-- Wreck application and enemy-leader promotion at one index of the `allJets` loop
(lines 305-348); mutations are visible to later iterations. -/
def applyWreckAt (rng : Rng) (now : ℚ) (destroyedIds : List String)
    (acc : List Jet × Nat) (i : Nat) : List Jet × Nat :=
  match acc.1.get? i with
  | none => acc
  | some jet =>
    if destroyedIds.contains jet.id then
      let k := acc.2
      let velocity := vadd jet.velocity
        ⟨(rng k - 1/2) * 20, (rng (k+1) - 1/2) * 20, (rng (k+2) - 1/2) * 20⟩
      let wav : Vec3 :=
        ⟨(rng (k+3) - 1/2) * 10, (rng (k+4) - 1/2) * 5, (rng (k+5) - 1/2) * 10⟩
      let jets1 := acc.1.set i { jet with isWrecked := true
                                          destroyedAt := some now
                                          velocity := velocity
                                          wreckageAngularVelocity := some wav }
      if jet.team == .enemy && jet.aiState == .attacking then
        let wingmen := jets1.filter (fun w => idMatches w.partnerId jet.id &&
          !w.isDestroyed && !w.isWrecked && !(destroyedIds.contains w.id))
        match wingmen.head? with
        | none => (jets1, k+6)
        | some newLeader =>
          let jets2 := setJetById jets1 newLeader.id
            (fun w => { w with aiState := .attacking
                               partnerId := none
                               disengagementAltitude := none })
          let currentActiveAllies := jets2.filter (fun j => j.team == .allied &&
            !j.isDestroyed && !j.isWrecked && !(destroyedIds.contains j.id))
          let picked :=
            if currentActiveAllies.length > 0 then
              match jsIndex currentActiveAllies
                  (rng (k+6) * (currentActiveAllies.length : ℚ)) with
              | some targetAlly =>
                (setJetById jets2 newLeader.id
                  (fun w => { w with targetId := some targetAlly.id }), k+7)
              | none => (jets2, k+7)  -- out-of-range draw: a real run never reaches this
            else (jets2, k+6)
          let remainingWingmen := wingmen.drop 1
          (remainingWingmen.foldl (fun c w =>
            setJetById c w.id (fun x => { x with partnerId := some newLeader.id }))
            picked.1, picked.2)
      else (jets1, k+6)
    else acc

def applyWrecks (rng : Rng) (now : ℚ) (destroyedIds : List String)
    (jets : List Jet) (k0 : Nat) : List Jet × Nat :=
  (List.range jets.length).foldl (applyWreckAt rng now destroyedIds) (jets, k0)

-- ------------------------------------------------------------------------------------
-- Green-team target swapping (lines 357-365)
-- ------------------------------------------------------------------------------------

def greenSwap (now : ℚ) (jets : List Jet) : List Jet :=
  if (jsFloor (now / 1000)) % GREEN_TARGET_SWAP_TIME = 0 then
    let greenJetsToSwap := jets.filter (fun j =>
      j.team == .allied && !j.isDestroyed && !j.isWrecked)
    match greenJetsToSwap.get? 0, greenJetsToSwap.get? 1 with
    | some j0, some j1 =>
      let tempTargetId := j0.targetId
      setJetById (setJetById jets j0.id (fun x => { x with targetId := j1.targetId }))
        j1.id (fun x => { x with targetId := tempTargetId })
    | _, _ => jets
  else jets

-- ------------------------------------------------------------------------------------
-- Cinematic-kill preparation (lines 367-393)
-- ------------------------------------------------------------------------------------

def cinematicPrep (scheduled executed : List BattleEvent) (elapsed : ℚ)
    (jets0 : List Jet) : List Jet :=
  let jets1 := jets0.map (fun j =>
    { j with cinematicKillTargetId := none, isTargetOfCinematicKill := false })
  (List.range jets1.length).foldl (fun cur i =>
    match cur.get? i with
    | none => cur
    | some jet =>
      match scheduled.find? (fun e =>
          e.attackerId == jet.id && e.type == .destroy &&
          decide (e.timestamp > elapsed) &&
          decide (e.timestamp ≤ elapsed + CINEMATIC_WINDOW) &&
          !(executed.contains e)) with
      | none => cur
      | some upcomingEvent =>
        let cur1 := cur.set i { jet with cinematicKillTargetId := some upcomingEvent.targetId }
        setJetById cur1 upcomingEvent.targetId
          (fun t => { t with isTargetOfCinematicKill := true })) jets1

-- ------------------------------------------------------------------------------------
-- Per-jet AI / physics / weapons update (updateJet, lines 396-787)
-- ------------------------------------------------------------------------------------

structure TickCtx where
  geo : Geo
  rng : Rng
  now : ℚ
  elapsed : ℚ
  status : Status
  scheduled : List BattleEvent
  executed : List BattleEvent
  activeAllied : List Jet
  alliedBarycenter : Vec3

structure JetsAcc where
  jets : List Jet
  outJets : List Jet
  tracers : List Tracer
  missiles : List Missile
  flares : List Flare
  newExecuted : List BattleEvent
  k : Nat

/-- Target acquisition and look-at point (lines 437-547).  Returns the look-at
point, the jet's (possibly rewritten) `targetId` and the random counter. -/
def aimPhase (ctx : TickCtx) (jets : List Jet) (jet : Jet) (k : Nat) :
    Vec3 × Option String × Nat :=
  if ctx.status == .disengaging then
    let exitY := jet.position.y
    let exitZ := jet.position.z * (1/2)
    if jet.team == .allied then ((⟨-(WORLD_RADIUS * 3), exitY, exitZ⟩ : Vec3), jet.targetId, k)
    else ((⟨WORLD_RADIUS * 3, exitY, exitZ⟩ : Vec3), jet.targetId, k)
  else if jet.cinematicKillTargetId.isSome then
    match jets.find? (fun j => idMatches jet.cinematicKillTargetId j.id) with
    | some cinematicTarget =>
      let targetBackward := applyQuaternion cinematicTarget.quaternion ⟨0, 0, -1⟩
      let tailingDistance := WEAPON_RANGE_THRESHOLD * (1/2)
      (vadd cinematicTarget.position (smul tailingDistance targetBackward), jet.targetId, k)
    | none =>
      (vadd jet.position (applyQuaternion jet.quaternion ⟨0, 0, 1⟩), jet.targetId, k)
  else if jet.isEscaping then
    (smul (WORLD_RADIUS * 2) (ctx.geo.normalize jet.position), jet.targetId, k)
  else
    let target0 := jets.find? (fun j =>
      idMatches jet.targetId j.id && !j.isDestroyed && !j.isWrecked)
    let upcomingEvent := ctx.scheduled.find? (fun e =>
      e.attackerId == jet.id && e.type == .destroy &&
      decide (e.timestamp > ctx.elapsed) && decide (e.timestamp ≤ ctx.elapsed + 5000))
    let chosen1 : Option String × Option Jet :=
      match upcomingEvent with
      | some ev =>
        if jet.aiState == .attacking || jet.team == .allied then
          (some ev.targetId, jets.find? (fun j =>
            idMatches (some ev.targetId) j.id && !j.isDestroyed && !j.isWrecked))
        else (jet.targetId, target0)
      | none => (jet.targetId, target0)
    let chosen2 : Option String × Option Jet × Nat :=
      if jet.team == .allied then
        match chosen1.2 with
        | some t => (chosen1.1, some t, k)
        | none =>
          let enemies := jets.filter (fun j =>
            j.team == .enemy && !j.isDestroyed && !j.isWrecked)
          match enemies with
          | [] => (chosen1.1, none, k)
          | c :: rest =>
            let closest := rest.foldl (fun closest enemy =>
              if distSq jet.position enemy.position < distSq jet.position closest.position
              then enemy else closest) c
            (some closest.id, some closest, k)
      else
        if jet.aiState == .attacking then
          match chosen1.2 with
          | some t => (chosen1.1, some t, k)
          | none =>
            let allies := jets.filter (fun j =>
              j.team == .allied && !j.isDestroyed && !j.isWrecked)
            if allies.length > 0 then
              match jsIndex allies (ctx.rng k * (allies.length : ℚ)) with
              | some t => (some t.id, some t, k+1)
              | none => (chosen1.1, none, k+1)  -- out-of-range draw: unreachable in a run
            else (chosen1.1, none, k)
        else
          (chosen1.1, jets.find? (fun j => idMatches jet.partnerId j.id), k)
    let pointToLookAt :=
      match chosen2.2.1 with
      | some target =>
        let pBase :=
          if jet.team == .enemy && jet.aiState == .following then
            match jets.find? (fun j => idMatches jet.partnerId j.id) with
            | some leader =>
              let leaderForward := applyQuaternion leader.quaternion ⟨0, 0, 1⟩
              let p0 := vsub leader.position (smul 15 leaderForward)
              match jet.disengagementAltitude with
              | some alt => { p0 with y := alt }
              | none => p0
            | none => vadd jet.position (applyQuaternion jet.quaternion ⟨0, 0, 1⟩)
          else target.position
        if jet.team == .allied && decide (ctx.activeAllied.length > 1) then
          let pCoh :=
            if distSq jet.position ctx.alliedBarycenter >
                GREEN_COHESION_RADIUS * GREEN_COHESION_RADIUS then
              let pullFactor := min 1
                ((ctx.geo.dist jet.position ctx.alliedBarycenter - GREEN_COHESION_RADIUS) /
                  GREEN_COHESION_RADIUS)
              vlerp pBase ctx.alliedBarycenter (pullFactor * GREEN_COHESION_STRENGTH)
            else pBase
          ctx.activeAllied.foldl (fun pAcc otherJet =>
            if jet.id == otherJet.id then pAcc
            else if distSq jet.position otherJet.position <
                GREEN_AVOIDANCE_RADIUS * GREEN_AVOIDANCE_RADIUS then
              let repulsionVector := ctx.geo.normalize (vsub jet.position otherJet.position)
              let avoidanceStrength :=
                (1 - ctx.geo.dist jet.position otherJet.position / GREEN_AVOIDANCE_RADIUS)^2 *
                  GREEN_AVOIDANCE_STRENGTH
              let avoidancePoint := vadd jet.position (smul WORLD_RADIUS repulsionVector)
              vlerp pAcc avoidancePoint avoidanceStrength
            else pAcc) pCoh
        else pBase
      | none => vadd jet.position (smul 10 (applyQuaternion jet.quaternion ⟨0, 0, 1⟩))
    (pointToLookAt, chosen2.1, chosen2.2.2)

/-- Rotation, translation and world-boundary reflection (lines 550-608).  Returns the
slerped orientation, eased velocity and integrated (possibly reflected) position. -/
def motionPhase (ctx : TickCtx) (jet : Jet) (pointToLookAt : Vec3) : Quat × Vec3 × Vec3 :=
  let position := jet.position
  let quaternion := jet.quaternion
  let targetQuaternion :=
    if ctx.status == .disengaging then ctx.geo.lookAtQuat pointToLookAt position ⟨0, 1, 0⟩
    else
      let directionToTarget := ctx.geo.normalize (vsub pointToLookAt position)
      let forward := applyQuaternion quaternion ⟨0, 0, 1⟩
      let rotationAxis := ctx.geo.normalize (vcross forward directionToTarget)
      if lengthSq rotationAxis > 1/1000 then
        let targetUp := vneg (ctx.geo.normalize (vcross directionToTarget rotationAxis))
        ctx.geo.lookAtQuat pointToLookAt position targetUp
      else ctx.geo.lookAtQuat pointToLookAt position ⟨0, 1, 0⟩
  let turnRate :=
    if jet.isTargetOfCinematicKill then TURN_SPEED * (3/10)
    else
      match jet.cinematicKillTargetId with
      | some cid =>
        match ctx.scheduled.find? (fun e =>
            e.attackerId == jet.id && e.targetId == cid && e.type == .destroy &&
            decide (e.timestamp > ctx.elapsed)) with
        | some upcomingEvent =>
          if upcomingEvent.timestamp - ctx.elapsed ≤ 1000 then TURN_SPEED * 3 else TURN_SPEED
        | none => TURN_SPEED
      | none => TURN_SPEED
  let quaternion1 := ctx.geo.slerp quaternion targetQuaternion (TICK_DELTA * turnRate)
  let forwardDir := applyQuaternion quaternion1 ⟨0, 0, 1⟩
  let velocity1 := vlerp jet.velocity (smul JET_SPEED forwardDir) (TICK_DELTA * 2)
  let position1 := vadd position (smul TICK_DELTA velocity1)
  let position2 :=
    if lengthSq position1 > WORLD_RADIUS * WORLD_RADIUS then vneg position1 else position1
  (quaternion1, velocity1, position2)

/-- Weapon-release logic (lines 610-670): cooldown, cone check, missile vs tracer
choice, script consultation for `willDetonate`, flare trigger on the target. -/
def firingPhase (ctx : TickCtx) (jets : List Jet) (i : Nat) (jet : Jet)
    (position2 : Vec3) (quaternion1 : Quat) (target : Option Jet)
    (missiles : List Missile) (newExecuted : List BattleEvent) (k : Nat) :
    List Jet × List Missile × List BattleEvent × Nat :=
  match target with
  | none => (jets, missiles, newExecuted, k)
  | some tgt =>
    if ctx.status == .active && jet.aiState == .attacking &&
        (jet.team == .allied || jet.team == .enemy) then
      let forwardDir := applyQuaternion quaternion1 ⟨0, 0, 1⟩
      let dirToTarget := ctx.geo.normalize (vsub tgt.position position2)
      let dotProduct := vdot forwardDir dirToTarget
      let isTargetInFront := decide (dotProduct > FIRING_CONE_DOT_PRODUCT)
      let jet2 := { jet with fireCooldown := jet.fireCooldown - TICK_DELTA }
      if decide (jet2.fireCooldown ≤ (0:ℚ)) && !jet2.burstState.active && isTargetInFront then
        if distSq position2 tgt.position >
            WEAPON_RANGE_THRESHOLD * WEAPON_RANGE_THRESHOLD then
          let fireDirection := applyQuaternion quaternion1 ⟨0, 0, 1⟩
          let missileVelocity := smul MISSILE_SPEED fireDirection
          let finalVelocity := vadd jet2.velocity missileVelocity
          let missileQuaternion :=
            ctx.geo.unitVecsQuat ⟨0, 1, 0⟩ (ctx.geo.normalize finalVelocity)
          let scriptedKillEvent := ctx.scheduled.find? (fun e =>
            e.type == .destroy && e.attackerId == jet2.id &&
            idMatches jet2.targetId e.targetId &&
            !(ctx.executed.contains e) && !(newExecuted.contains e))
          let newExecuted1 :=
            match scriptedKillEvent with
            | some ev => newExecuted ++ [ev]
            | none => newExecuted
          let missiles1 := missiles ++ [{
            id := s!"m_{jet2.id}_{ctx.now}"
            position := position2
            velocity := finalVelocity
            quaternion := missileQuaternion
            life := MISSILE_LIFESPAN
            targetId := jet2.targetId
            willDetonate := scriptedKillEvent.isSome }]
          let jet3 := { jet2 with fireCooldown := FIRING_COOLDOWN + (ctx.rng k - 1/2) }
          let jets2 := jets.set i jet3
          let jets3 :=
            match jets2.find? (fun j =>
                idMatches jet3.targetId j.id && !j.isDestroyed && !j.isWrecked) with
            | some targetJet =>
              if !targetJet.flareState.deploying then
                setJetById jets2 targetJet.id (fun t => { t with flareState :=
                  { deploying := true, flaresLeft := FLARES_TO_DEPLOY, nextFlareTimer := 0 } })
              else jets2
            | none => jets2
          (jets3, missiles1, newExecuted1, k+1)
        else
          let jet3 := { jet2 with
            burstState := { active := true
                            burstsLeft := BURST_COUNT
                            tracersLeftInBurst := TRACERS_PER_BURST
                            nextShotTimer := 0
                            isKillShot := jet2.burstState.isKillShot }
            fireCooldown := FIRING_COOLDOWN + (ctx.rng k - 1/2) }
          (jets.set i jet3, missiles, newExecuted, k+1)
      else (jets.set i jet2, missiles, newExecuted, k)
    else (jets, missiles, newExecuted, k)

/-- Kill-shot resolution (lines 692-705): if the armed flag is set, wreck the current
target (if alive) and clear the burst. -/
def killShotResolve (ctx : TickCtx) (jets : List Jet) (jet : Jet) (bs0 : BurstState)
    (k1 : Nat) : List Jet × BurstState × Nat :=
  if bs0.isKillShot then
    match jets.find? (fun j =>
        idMatches jet.targetId j.id && !j.isDestroyed && !j.isWrecked) with
    | some targetJet =>
      let wav : Vec3 := ⟨(ctx.rng k1 - 1/2) * 10, (ctx.rng (k1+1) - 1/2) * 5,
        (ctx.rng (k1+2) - 1/2) * 10⟩
      (setJetById jets targetJet.id (fun t =>
        { t with isWrecked := true
                 destroyedAt := some ctx.now
                 wreckageAngularVelocity := some wav }),
       { bs0 with active := false, isKillShot := false }, k1 + 3)
    | none => (jets, { bs0 with active := false, isKillShot := false }, k1)
  else (jets, bs0, k1)

/-- Burst countdown (lines 707-740): decrement rounds/bursts; on entering the final
burst, arm the kill shot iff an unexecuted scripted destroy event from this jet to
its current target exists (consuming it). -/
def burstCountdown (ctx : TickCtx) (jet : Jet) (newExecuted : List BattleEvent)
    (bs1 : BurstState) : BurstState × List BattleEvent :=
  if bs1.active then
    let bs2 := { bs1 with tracersLeftInBurst := bs1.tracersLeftInBurst - 1 }
    if bs2.tracersLeftInBurst ≤ (0:ℚ) then
      let bs3 := { bs2 with burstsLeft := bs2.burstsLeft - 1 }
      if bs3.burstsLeft ≤ (0:ℚ) then
        ({ bs3 with active := false, isKillShot := false }, newExecuted)
      else
        let bs4 := { bs3 with tracersLeftInBurst := TRACERS_PER_BURST
                              nextShotTimer := TIME_BETWEEN_BURSTS }
        if bs4.burstsLeft = (1:ℚ) then
          match ctx.scheduled.find? (fun e => e.type == .destroy &&
              e.attackerId == jet.id && idMatches jet.targetId e.targetId &&
              !(ctx.executed.contains e) && !(newExecuted.contains e)) with
          | some ev => ({ bs4 with isKillShot := true }, newExecuted ++ [ev])
          | none => ({ bs4 with isKillShot := false }, newExecuted)
        else ({ bs4 with isKillShot := false }, newExecuted)
    else ({ bs2 with nextShotTimer := TIME_BETWEEN_TRACERS }, newExecuted)
  else (bs1, newExecuted)

/-- Burst firing (lines 672-742): tracer emission, kill-shot resolution, burst
countdown and final-burst arming against the script. -/
def burstPhase (ctx : TickCtx) (jets : List Jet) (i : Nat) (jet : Jet)
    (position2 : Vec3) (quaternion1 : Quat) (target : Option Jet)
    (tracers : List Tracer) (newExecuted : List BattleEvent) (k : Nat) :
    List Jet × List Tracer × List BattleEvent × Nat :=
  if ctx.status == .active && jet.burstState.active && target.isSome then
    let bs0 := { jet.burstState with
      nextShotTimer := jet.burstState.nextShotTimer - TICK_DELTA }
    if bs0.nextShotTimer ≤ (0:ℚ) then
      let fireDirection := ctx.geo.normalize (vadd (applyQuaternion quaternion1 ⟨0, 0, 1⟩)
        (smul (2/100) ⟨ctx.rng k - 1/2, ctx.rng (k+1) - 1/2, ctx.rng (k+2) - 1/2⟩))
      let tracerVelocity := vadd jet.velocity (smul TRACER_SPEED fireDirection)
      let tracerQuaternion := ctx.geo.unitVecsQuat ⟨0, 1, 0⟩ (ctx.geo.normalize tracerVelocity)
      let tracers1 := tracers ++ [{
        id := s!"t_{jet.id}_{ctx.now}_{ctx.rng (k+3)}"
        position := position2
        velocity := tracerVelocity
        quaternion := tracerQuaternion
        life := TRACER_LIFESPAN }]
      let killRes := killShotResolve ctx jets jet bs0 (k + 4)
      let countRes := burstCountdown ctx jet newExecuted killRes.2.1
      (killRes.1.set i { ((killRes.1.get? i).getD jet) with burstState := countRes.1 },
       tracers1, countRes.2, killRes.2.2)
    else
      (jets.set i { jet with burstState := bs0 }, tracers, newExecuted, k)
  else (jets, tracers, newExecuted, k)

/-- Flare deployment (lines 744-779). -/
def flarePhase (ctx : TickCtx) (jets : List Jet) (i : Nat) (jet : Jet)
    (position2 : Vec3) (quaternion1 : Quat) (flares : List Flare) :
    List Jet × List Flare :=
  if jet.flareState.deploying then
    let fs0 := { jet.flareState with
      nextFlareTimer := jet.flareState.nextFlareTimer - TICK_DELTA }
    if fs0.nextFlareTimer ≤ (0:ℚ) ∧ fs0.flaresLeft > (0:ℚ) then
      let right := applyQuaternion quaternion1 ⟨1, 0, 0⟩
      let back := applyQuaternion quaternion1 ⟨0, 0, -1⟩
      let leftVel := smul FLARE_EJECTION_SPEED
        (ctx.geo.normalize (vadd (vneg right) (smul (1/2) back)))
      let leftPos := vadd position2 (smul FLARE_WING_OFFSET (vneg right))
      let rightVel := smul FLARE_EJECTION_SPEED
        (ctx.geo.normalize (vadd right (smul (1/2) back)))
      let rightPos := vadd position2 (smul FLARE_WING_OFFSET right)
      let flares1 := flares ++
        [{ id := s!"f_{jet.id}_{ctx.now}_l"
           position := leftPos
           velocity := leftVel
           life := FLARE_LIFESPAN },
         { id := s!"f_{jet.id}_{ctx.now}_r"
           position := rightPos
           velocity := rightVel
           life := FLARE_LIFESPAN }]
      let fs1 := { fs0 with flaresLeft := fs0.flaresLeft - 2 }
      let fs2 :=
        if fs1.flaresLeft ≤ (0:ℚ) then { fs1 with deploying := false }
        else { fs1 with nextFlareTimer := TIME_BETWEEN_FLARE_PAIRS }
      (jets.set i { jet with flareState := fs2 }, flares1)
    else (jets.set i { jet with flareState := fs0 }, flares)
  else (jets, flares)

/-- `updateJet` at index `i` of the combined jets array: wreckage physics or full AI
pass.  The live array receives the in-place mutations; the returned copy (appended
to `outJets`) carries the new kinematics. -/
def updateJet (ctx : TickCtx) (acc : JetsAcc) (i : Nat) : JetsAcc :=
  match acc.jets.get? i with
  | none => acc
  | some jet =>
    if jet.isWrecked then
      let velocity0 := smul (1 - TICK_DELTA * (9/10)) jet.velocity
      let velocity := { velocity0 with y := velocity0.y - (98/10) * TICK_DELTA }
      let position := vadd jet.position (smul TICK_DELTA velocity)
      let quaternion :=
        match jet.wreckageAngularVelocity with
        | some angularVel =>
          let deltaRotation := ctx.geo.eulerQuat
            ⟨angularVel.x * TICK_DELTA, angularVel.y * TICK_DELTA, angularVel.z * TICK_DELTA⟩
          ctx.geo.quatNormalize (quatMul jet.quaternion deltaRotation)
        | none => jet.quaternion
      let destroyedAt :=
        if lengthSq position > WORLD_RADIUS * WORLD_RADIUS then
          some (ctx.now - RESPAWN_TIME - 1)
        else jet.destroyedAt
      let jetArr := { jet with quaternion := quaternion, destroyedAt := destroyedAt }
      { acc with
        jets := acc.jets.set i jetArr
        outJets := acc.outJets ++ [{ jetArr with position := position, velocity := velocity }] }
    else if jet.isDestroyed then
      { acc with outJets := acc.outJets ++ [jet] }
    else
      let aim := aimPhase ctx acc.jets jet acc.k
      let jet1 := { jet with targetId := aim.2.1 }
      let jets1 := acc.jets.set i jet1
      let mot := motionPhase ctx jet1 aim.1
      let target := jets1.find? (fun j =>
        idMatches jet1.targetId j.id && !j.isDestroyed && !j.isWrecked)
      let fire := firingPhase ctx jets1 i jet1 mot.2.2 mot.1 target
        acc.missiles acc.newExecuted aim.2.2
      let jet2 := (fire.1.get? i).getD jet1
      let burst := burstPhase ctx fire.1 i jet2 mot.2.2 mot.1 target
        acc.tracers fire.2.2.1 fire.2.2.2
      let jet3 := (burst.1.get? i).getD jet2
      let flare := flarePhase ctx burst.1 i jet3 mot.2.2 mot.1 acc.flares
      let jet4 := ((flare.1.get? i).getD jet3)
      { jets := flare.1
        outJets := acc.outJets ++
          [{ jet4 with position := mot.2.2, velocity := mot.2.1, quaternion := mot.1 }]
        tracers := burst.2.1
        missiles := fire.2.1
        flares := flare.2
        newExecuted := burst.2.2.1
        k := burst.2.2.2 }

-- ------------------------------------------------------------------------------------
-- Effect collection updates (lines 792-863) and respawn (lines 866-894)
-- ------------------------------------------------------------------------------------

def updateTracers (tracers : List Tracer) : List Tracer :=
  (tracers.map (fun t => { t with
    position := vadd t.position (smul TICK_DELTA t.velocity)
    life := t.life - TICK_DELTA })).filter (fun t => decide (t.life > 0))

def updateMissile (geo : Geo) (jets : List Jet) (m : Missile) : Missile :=
  let currentTarget := jets.find? (fun j =>
    idMatches m.targetId j.id && !j.isWrecked && !j.isDestroyed)
  if m.id.startsWith "m_forced_" && currentTarget.isSome then
    match currentTarget with
    | some t =>
      let newPosition := vlerp m.position t.position (8/100)
      let newVelocity := smul (MISSILE_SPEED * 2) (geo.normalize (vsub t.position m.position))
      { m with position := newPosition
               velocity := newVelocity
               quaternion := geo.unitVecsQuat ⟨0, 1, 0⟩ (geo.normalize newVelocity)
               life := m.life - TICK_DELTA }
    | none => m
  else
    let newVelocity0 :=
      match currentTarget with
      | some t =>
        let targetForward := applyQuaternion t.quaternion ⟨0, 0, 1⟩
        let leadPoint := vadd t.position (smul LEAD_TARGET_DISTANCE targetForward)
        let desiredDirection := geo.normalize (vsub leadPoint m.position)
        let desiredVelocity := smul MISSILE_SPEED desiredDirection
        vlerp m.velocity desiredVelocity (TICK_DELTA * MISSILE_TURN_SPEED)
      | none => m.velocity
    let newVelocity := smul MISSILE_SPEED (geo.normalize newVelocity0)
    { m with position := vadd m.position (smul TICK_DELTA newVelocity)
             velocity := newVelocity
             quaternion := geo.unitVecsQuat ⟨0, 1, 0⟩ (geo.normalize newVelocity)
             life := m.life - TICK_DELTA }

def updateMissiles (geo : Geo) (jets : List Jet) (missiles : List Missile) : List Missile :=
  (missiles.map (updateMissile geo jets)).filter (fun m => decide (m.life > 0))

def updateFlares (flares : List Flare) : List Flare :=
  (flares.map (fun f =>
    let v1 := { f.velocity with y := f.velocity.y - (98/10) * TICK_DELTA }
    let v2 := smul (1 - TICK_DELTA * FLARE_DRAG) v1
    { f with position := vadd f.position (smul TICK_DELTA v2)
             velocity := v2
             life := f.life - TICK_DELTA })).filter (fun f => decide (f.life > 0))

/-- Respawn pass (lines 866-894); `jet.destroyedAt &&` is JS truthiness, so a zero
timestamp also fails the test. -/
def respawnJets (geo : Geo) (rng : Rng) (now : ℚ) (jets : List Jet) (k0 : Nat) :
    List Jet × Nat :=
  jets.foldl (fun (acc : List Jet × Nat) jet =>
    let due :=
      match jet.destroyedAt with
      | some d => (jet.isDestroyed || jet.isWrecked) && !(decide (d = 0)) &&
          decide (now - d > RESPAWN_TIME)
      | none => false
    if due then
      let k := acc.2
      let angle := rng k * geo.jsPI * 2
      let radius : ℚ := if jet.team == .allied then 40 else 60
      (acc.1 ++ [{ jet with
        isDestroyed := false
        isWrecked := false
        destroyedAt := none
        wreckageAngularVelocity := none
        position := ⟨geo.cosine angle * radius, (rng (k+1) - 1/2) * 20, geo.sine angle * radius⟩
        velocity := ⟨0, 0, 0⟩
        quaternion := ⟨0, 0, 0, 1⟩
        health := jet.maxHealth
        fireCooldown := rng (k+2) * 3
        burstState := { active := false
                        burstsLeft := 0
                        tracersLeftInBurst := 0
                        nextShotTimer := 0
                        isKillShot := false }
        flareState := { deploying := false, flaresLeft := 0, nextFlareTimer := 0 } }], k+3)
    else (acc.1 ++ [jet], acc.2)) ([], k0)

-- ------------------------------------------------------------------------------------
-- The full simulation tick (the setInterval callback, lines 205-930)
-- ------------------------------------------------------------------------------------

/-- One tick.  The callback is only installed while the phase is non-terminal
(line 206), hence the terminal guard.  The `disengaging` transition is applied to the
final state while the body computes from the captured snapshot, matching the
functional `setBattleState` updates of the source.  `outJets` post-processing models
the JS aliasing of the nested `burstState`/`flareState` objects between the live
array and the already-taken per-jet copies. -/
def tick (geo : Geo) (rng : Rng) (now : ℚ) (respawnEnabled : Bool) (s : SimState) :
    SimState :=
  if s.status == .victory || s.status == .defeat then s
  else
    let elapsed := now - s.startTime
    let s1 :=
      if s.status == .active && decide (elapsed > s.disengageTime) then
        { s with status := .disengaging }
      else s
    if elapsed ≥ s.battleEndTime then
      { s1 with status := if victoryFlag s then .victory else .defeat, endTime := some now }
    else
      let allJets := s.alliedJets ++ s.enemyJets
      let activeAllied := s.alliedJets.filter (fun j =>
        j.team == .allied && !j.isDestroyed && !j.isWrecked)
      let execOut := execStep geo allJets s.scheduledEvents s.executedEvents elapsed now
        s.missiles
      let det := detonationFilter allJets execOut.missiles
      let wrecked := applyWrecks rng now det.destroyedJetIds allJets 0
      let alliedBarycenter :=
        if activeAllied.length > 0 then
          smul (1 / (activeAllied.length : ℚ))
            (activeAllied.foldl (fun v j => vadd v j.position) ⟨0, 0, 0⟩)
        else (⟨0, 0, 0⟩ : Vec3)
      let jets3 := greenSwap now wrecked.1
      let jets4 := cinematicPrep s.scheduledEvents s.executedEvents elapsed jets3
      let ctx : TickCtx := { geo := geo
                             rng := rng
                             now := now
                             elapsed := elapsed
                             status := s.status
                             scheduled := s.scheduledEvents
                             executed := s.executedEvents
                             activeAllied := activeAllied
                             alliedBarycenter := alliedBarycenter }
      let acc0 : JetsAcc := { jets := jets4
                              outJets := []
                              tracers := s.tracers
                              missiles := det.missiles
                              flares := s.flares
                              newExecuted := execOut.newExecuted
                              k := wrecked.2 }
      let accF := (List.range jets4.length).foldl (updateJet ctx) acc0
      let outJets := accF.outJets.mapIdx (fun idx oj =>
        match accF.jets.get? idx with
        | some cur => { oj with burstState := cur.burstState, flareState := cur.flareState }
        | none => oj)
      let updatedTracers := updateTracers accF.tracers
      let updatedMissiles := updateMissiles geo accF.jets accF.missiles
      let updatedFlares := updateFlares accF.flares
      let updatedAllied := outJets.take s.alliedJets.length
      let updatedEnemy := outJets.drop s.alliedJets.length
      if respawnEnabled then
        let ra := respawnJets geo rng now updatedAllied accF.k
        let re := respawnJets geo rng now updatedEnemy ra.2
        { s1 with alliedJets := ra.1
                  enemyJets := re.1
                  executedEvents := s.executedEvents ++ accF.newExecuted
                  tracers := updatedTracers
                  missiles := updatedMissiles
                  flares := updatedFlares }
      else
        { s1 with alliedJets := updatedAllied
                  enemyJets := updatedEnemy
                  executedEvents := s.executedEvents ++ accF.newExecuted
                  tracers := updatedTracers
                  missiles := updatedMissiles
                  flares := updatedFlares }

-- ====================================================================================
-- C7
-- ====================================================================================

/-- C7: the battle phase clock.  `disengageTimeOf` equals the minimum of (timestamp of
the last scripted destroy event + DISENGAGE_DELAY) and (BATTLE_DURATION −
DISENGAGE_DELAY) — the head of the descending sort is a maximal-timestamp destroy
event — and the terminal deadline sits a fixed DISENGAGE_DURATION after it; in the
tick, an active phase past `disengageTime` (but before `battleEndTime`) becomes
`disengaging`, and once `battleEndTime` is reached the phase becomes `victory`
exactly when the pre-computed results decided victory, else `defeat`. -/
theorem c7_phase_clock (events : List BattleEvent) (geo : Geo) (rng : Rng)
    (now : ℚ) (respawnEnabled : Bool) (s : SimState) :
    (∀ e, lastDestroyEvent events = some e →
      e ∈ events ∧ e.type = .destroy ∧
        (∀ f ∈ events, f.type = .destroy → f.timestamp ≤ e.timestamp) ∧
        disengageTimeOf events =
          min (e.timestamp + DISENGAGE_DELAY) (BATTLE_DURATION - DISENGAGE_DELAY)) ∧
    (lastDestroyEvent events = none →
      disengageTimeOf events = BATTLE_DURATION - DISENGAGE_DELAY) ∧
    battleEndTimeOf events = disengageTimeOf events + DISENGAGE_DURATION ∧
    (s.status = .active → now - s.startTime > s.disengageTime →
      now - s.startTime < s.battleEndTime →
      (tick geo rng now respawnEnabled s).status = .disengaging) ∧
    (s.status ≠ .victory → s.status ≠ .defeat → now - s.startTime ≥ s.battleEndTime →
      (tick geo rng now respawnEnabled s).status =
        (if victoryFlag s then Status.victory else Status.defeat) ∧
      (tick geo rng now respawnEnabled s).endTime = some now) := by
  refine ⟨?_, ?_, rfl, ?_, ?_⟩
  · intro e he
    obtain ⟨h1, h2, h3⟩ := lastDestroyEvent_spec events e he
    exact ⟨h1, h2, h3, by simp [disengageTimeOf, he]⟩
  · intro hn
    simp [disengageTimeOf, hn]
  · intro h1 h2 h3
    simp only [tick]
    rw [if_neg (by simp [h1]), if_neg (not_le.mpr h3)]
    cases respawnEnabled <;>
      simp [h1, h2]
  · intro hv hd h3
    simp only [tick]
    rw [if_neg ?hguard, if_pos h3]
    case hguard =>
      simp only [Bool.or_eq_true, beq_iff_eq]
      rintro (h | h)
      · exact hv h
      · exact hd h
    exact ⟨rfl, rfl⟩

def c7Destroy : BattleEvent :=
  { timestamp := 12000, type := .destroy, attackerId := "allied-0", targetId := "enemy-0"
    damage := some 100 }

def c7State : SimState :=
  { status := .active
    startTime := 0
    endTime := none
    disengageTime := 14000
    battleEndTime := 19000
    alliedJets := []
    enemyJets := []
    playerTactic := .aggressive
    scheduledEvents := []
    executedEvents := []
    tracers := []
    missiles := []
    flares := []
    results := some c6Results }

def rng0 : Rng := fun _ => 0

/-- Witness for C7 at a concrete script and state: the clock values compute as claimed
and the tick transitions fire. -/
theorem c7_phase_clock_witness :
    (disengageTimeOf [c7Destroy] =
      min (c7Destroy.timestamp + DISENGAGE_DELAY) (BATTLE_DURATION - DISENGAGE_DELAY)) ∧
    battleEndTimeOf [c7Destroy] = disengageTimeOf [c7Destroy] + DISENGAGE_DURATION ∧
    (tick cGeo rng0 14500 false c7State).status = .disengaging ∧
    (tick cGeo rng0 19000 false c7State).status = .victory := by
  have hlast : lastDestroyEvent [c7Destroy] = some c7Destroy := by
    simp [lastDestroyEvent, c7Destroy, List.mergeSort]
  refine ⟨((c7_phase_clock [c7Destroy] cGeo rng0 14500 false c7State).1 c7Destroy
      hlast).2.2.2, (c7_phase_clock [c7Destroy] cGeo rng0 14500 false c7State).2.2.1, ?_, ?_⟩
  · exact (c7_phase_clock [c7Destroy] cGeo rng0 14500 false c7State).2.2.2.1 rfl
      (by norm_num [c7State]) (by norm_num [c7State])
  · have h := ((c7_phase_clock [c7Destroy] cGeo rng0 19000 false c7State).2.2.2.2
      (by simp [c7State]) (by simp [c7State]) (by norm_num [c7State])).1
    rw [h]
    simp [victoryFlag, c7State, c6Results]

-- ------------------------------------------------------------------------------------
-- Helper lemmas for the lethality-gating and once-only invariants
-- ------------------------------------------------------------------------------------

lemma idMatches_true {o : Option String} {id : String} (h : idMatches o id = true) :
    o = some id := by
  cases o with
  | none => simp [idMatches] at h
  | some t =>
    simp only [idMatches, beq_iff_eq] at h
    rw [h]

lemma setJetById_length (jets : List Jet) (id : String) (f : Jet → Jet) :
    (setJetById jets id f).length = jets.length := by
  induction jets with
  | nil => rfl
  | cons j rest ih =>
    unfold setJetById
    by_cases h : (j.id == id) = true
    · simp [h]
    · simp [h, ih]

lemma mem_setJetById (jets : List Jet) (id : String) (f : Jet → Jet) :
    ∀ j ∈ setJetById jets id f, j ∈ jets ∨ ∃ j0 ∈ jets, j = f j0 := by
  induction jets with
  | nil => intro j hj; exact absurd hj (List.not_mem_nil j)
  | cons a rest ih =>
    intro j hj
    unfold setJetById at hj
    by_cases h : (a.id == id) = true
    · rw [if_pos h] at hj
      rcases List.mem_cons.mp hj with rfl | htl
      · exact Or.inr ⟨a, List.mem_cons_self a rest, rfl⟩
      · exact Or.inl (List.mem_cons_of_mem a htl)
    · rw [if_neg h] at hj
      rcases List.mem_cons.mp hj with rfl | htl
      · exact Or.inl (List.mem_cons_self j rest)
      · rcases ih j htl with hmem | ⟨j0, hj0, rfl⟩
        · exact Or.inl (List.mem_cons_of_mem a hmem)
        · exact Or.inr ⟨j0, List.mem_cons_of_mem a hj0, rfl⟩

lemma setJetById_get? (jets : List Jet) (id : String) (f : Jet → Jet) (i : Nat) :
    (setJetById jets id f).get? i = jets.get? i ∨
    ∃ j0, jets.get? i = some j0 ∧ (setJetById jets id f).get? i = some (f j0) := by
  induction jets generalizing i with
  | nil => exact Or.inl rfl
  | cons a rest ih =>
    unfold setJetById
    by_cases h : (a.id == id) = true
    · rw [if_pos h]
      cases i with
      | zero => exact Or.inr ⟨a, rfl, rfl⟩
      | succ n => exact Or.inl rfl
    · rw [if_neg h]
      cases i with
      | zero => exact Or.inl rfl
      | succ n =>
        rcases ih n with h1 | ⟨j0, hj0, hj1⟩
        · exact Or.inl h1
        · exact Or.inr ⟨j0, hj0, hj1⟩

lemma mem_set_jets (jets : List Jet) (i : Nat) (a : Jet) :
    ∀ j ∈ jets.set i a, j ∈ jets ∨ j = a := by
  intro j hj
  rcases List.mem_or_eq_of_mem_set hj with h | h
  · exact Or.inl h
  · exact Or.inr h

/-- The weapon-release pass either leaves the missile list unchanged or appends
exactly one missile targeting the jet's current target; that missile is lethal only
if an unexecuted scripted destroy event from this jet to this target exists. -/
lemma firingPhase_missiles_spec (ctx : TickCtx) (jets : List Jet) (i : Nat) (jet : Jet)
    (position2 : Vec3) (quaternion1 : Quat) (target : Option Jet)
    (missiles : List Missile) (newExecuted : List BattleEvent) (k : Nat) :
    (firingPhase ctx jets i jet position2 quaternion1 target missiles newExecuted k).2.1 =
      missiles ∨
    ∃ m, (firingPhase ctx jets i jet position2 quaternion1 target missiles
        newExecuted k).2.1 = missiles ++ [m] ∧ m.targetId = jet.targetId ∧
      (m.willDetonate = true →
        ∃ e ∈ ctx.scheduled, e ∉ ctx.executed ∧ e ∉ newExecuted ∧ e.type = .destroy ∧
          e.attackerId = jet.id ∧ jet.targetId = some e.targetId) := by
  unfold firingPhase
  cases target with
  | none => exact Or.inl rfl
  | some tgt =>
    dsimp only
    split
    · split
      · split
        · refine Or.inr ⟨_, rfl, rfl, ?_⟩
          intro hdet
          rw [Option.isSome_iff_exists] at hdet
          obtain ⟨e, he⟩ := hdet
          have hp := List.find?_some he
          have hmem := List.mem_of_find?_eq_some he
          simp only [Bool.and_eq_true, beq_iff_eq] at hp
          refine ⟨e, hmem, ?_, ?_, hp.1.1.1.1, hp.1.1.1.2, idMatches_true hp.1.1.2⟩
          · have h1 := hp.1.2
            simp only [Bool.not_eq_true'] at h1
            simpa using h1
          · have h2 := hp.2
            simp only [Bool.not_eq_true'] at h2
            simpa using h2
        · exact Or.inl rfl
      · exact Or.inl rfl
    · exact Or.inl rfl

lemma firingPhase_newExecuted_ext (ctx : TickCtx) (jets : List Jet) (i : Nat) (jet : Jet)
    (position2 : Vec3) (quaternion1 : Quat) (target : Option Jet)
    (missiles : List Missile) (newExecuted : List BattleEvent) (k : Nat) :
    ∃ ext, (firingPhase ctx jets i jet position2 quaternion1 target missiles
      newExecuted k).2.2.1 = newExecuted ++ ext := by
  unfold firingPhase
  cases target with
  | none => exact ⟨[], by simp⟩
  | some tgt =>
    dsimp only
    repeat' split
    all_goals first
      | exact ⟨_, rfl⟩
      | exact ⟨[], by simp⟩

lemma firingPhase_killshot_false (ctx : TickCtx) (jets : List Jet) (i : Nat) (jet : Jet)
    (position2 : Vec3) (quaternion1 : Quat) (target : Option Jet)
    (missiles : List Missile) (newExecuted : List BattleEvent) (k : Nat)
    (hjets : ∀ j ∈ jets, j.burstState.isKillShot = false)
    (hjet : jet.burstState.isKillShot = false) :
    ∀ j ∈ (firingPhase ctx jets i jet position2 quaternion1 target missiles
      newExecuted k).1, j.burstState.isKillShot = false := by
  unfold firingPhase
  cases target with
  | none => exact hjets
  | some tgt =>
    dsimp only
    split
    · split
      · split
        · -- missile path: optional flare trigger on the target
          split
          · split
            · intro j hj
              rcases mem_setJetById _ _ _ j hj with hmem | ⟨j0, hj0, rfl⟩
              · rcases mem_set_jets _ _ _ j hmem with h | rfl
                · exact hjets j h
                · exact hjet
              · rcases mem_set_jets _ _ _ j0 hj0 with h | rfl
                · exact hjets j0 h
                · exact hjet
            · intro j hj
              rcases mem_set_jets _ _ _ j hj with h | rfl
              · exact hjets j h
              · exact hjet
          · intro j hj
            rcases mem_set_jets _ _ _ j hj with h | rfl
            · exact hjets j h
            · exact hjet
        · -- burst start
          intro j hj
          rcases mem_set_jets _ _ _ j hj with h | rfl
          · exact hjets j h
          · exact hjet
      · intro j hj
        rcases mem_set_jets _ _ _ j hj with h | rfl
        · exact hjets j h
        · exact hjet
    · exact hjets

/-- Property carried by an armed kill-shot flag: it is backed by a scripted destroy
event from this jet to its current target, unexecuted as of `newExec0`. -/
def KillShotBacked (ctx : TickCtx) (newExec0 : List BattleEvent) (j : Jet) : Prop :=
  j.burstState.isKillShot = true →
    ∃ e ∈ ctx.scheduled, e ∉ ctx.executed ∧ e ∉ newExec0 ∧ e.type = .destroy ∧
      e.attackerId = j.id ∧ j.targetId = some e.targetId

lemma killShotResolve_flag (ctx : TickCtx) (jets : List Jet) (jet : Jet)
    (bs0 : BurstState) (k1 : Nat) :
    (killShotResolve ctx jets jet bs0 k1).2.1.isKillShot = false ∨
    (killShotResolve ctx jets jet bs0 k1).2.1.isKillShot = bs0.isKillShot := by
  unfold killShotResolve
  split
  · split <;> exact Or.inl rfl
  · exact Or.inr rfl

lemma killShotResolve_flag_false (ctx : TickCtx) (jets : List Jet) (jet : Jet)
    (bs0 : BurstState) (k1 : Nat) (h : bs0.isKillShot = false) :
    (killShotResolve ctx jets jet bs0 k1).2.1.isKillShot = false := by
  rcases killShotResolve_flag ctx jets jet bs0 k1 with h1 | h1
  · exact h1
  · rw [h1, h]

lemma killShotResolve_mem (ctx : TickCtx) (jets : List Jet) (jet : Jet)
    (bs0 : BurstState) (k1 : Nat) :
    ∀ j ∈ (killShotResolve ctx jets jet bs0 k1).1, j ∈ jets ∨
      ∃ j0 ∈ jets, j.burstState = j0.burstState ∧ j.id = j0.id ∧ j.targetId = j0.targetId := by
  unfold killShotResolve
  split
  · split
    · intro j hj
      rcases mem_setJetById _ _ _ j hj with h | ⟨j0, hj0, rfl⟩
      · exact Or.inl h
      · exact Or.inr ⟨j0, hj0, rfl, rfl, rfl⟩
    · intro j hj; exact Or.inl hj
  · intro j hj; exact Or.inl hj

lemma killShotResolve_get? (ctx : TickCtx) (jets : List Jet) (jet : Jet)
    (bs0 : BurstState) (k1 : Nat) (i : Nat) :
    (killShotResolve ctx jets jet bs0 k1).1.get? i = jets.get? i ∨
    ∃ j0, jets.get? i = some j0 ∧
      ∃ j1, (killShotResolve ctx jets jet bs0 k1).1.get? i = some j1 ∧
        j1.id = j0.id ∧ j1.targetId = j0.targetId ∧ j1.burstState = j0.burstState := by
  unfold killShotResolve
  split
  · split
    · rcases setJetById_get? jets _ _ i with h | ⟨j0, hj0, hj1⟩
      · exact Or.inl h
      · exact Or.inr ⟨j0, hj0, _, hj1, rfl, rfl, rfl⟩
    · exact Or.inl rfl
  · exact Or.inl rfl

lemma burstCountdown_armed (ctx : TickCtx) (jet : Jet) (newExecuted : List BattleEvent)
    (bs1 : BurstState) (h1 : bs1.isKillShot = false)
    (harm : (burstCountdown ctx jet newExecuted bs1).1.isKillShot = true) :
    ∃ e ∈ ctx.scheduled, e ∉ ctx.executed ∧ e ∉ newExecuted ∧ e.type = .destroy ∧
      e.attackerId = jet.id ∧ jet.targetId = some e.targetId := by
  unfold burstCountdown at harm
  split at harm
  · dsimp only at harm
    split at harm
    · split at harm
      · simp at harm
      · split at harm
        · split at harm
          next ev hfind =>
            have hp := List.find?_some hfind
            have hmem := List.mem_of_find?_eq_some hfind
            simp only [Bool.and_eq_true, beq_iff_eq] at hp
            refine ⟨ev, hmem, ?_, ?_, hp.1.1.1.1, hp.1.1.1.2, idMatches_true hp.1.1.2⟩
            · have h2 := hp.1.2
              simp only [Bool.not_eq_true'] at h2
              simpa using h2
            · have h2 := hp.2
              simp only [Bool.not_eq_true'] at h2
              simpa using h2
          next hfind => simp at harm
        · simp at harm
    · simp at harm
      exact absurd (h1 ▸ harm) (by simp)
  · rw [h1] at harm
    exact absurd harm (by simp)

lemma burstCountdown_newExecuted_ext (ctx : TickCtx) (jet : Jet)
    (newExecuted : List BattleEvent) (bs1 : BurstState) :
    ∃ ext, (burstCountdown ctx jet newExecuted bs1).2 = newExecuted ++ ext := by
  have h : newExecuted <+: (burstCountdown ctx jet newExecuted bs1).2 := by
    unfold burstCountdown
    repeat' first
      | exact List.prefix_append _ _
      | exact List.prefix_rfl
      | split
      | dsimp only
  obtain ⟨t, ht⟩ := h
  exact ⟨t, ht.symm⟩

lemma burstPhase_armed (ctx : TickCtx) (jets : List Jet) (i : Nat) (jet : Jet)
    (position2 : Vec3) (quaternion1 : Quat) (target : Option Jet)
    (tracers : List Tracer) (newExecuted : List BattleEvent) (k : Nat)
    (hjets : ∀ j ∈ jets, j.burstState.isKillShot = false)
    (hjet : jet.burstState.isKillShot = false)
    (hid : ∀ j0, jets.get? i = some j0 → j0.id = jet.id ∧ j0.targetId = jet.targetId) :
    ∀ j ∈ (burstPhase ctx jets i jet position2 quaternion1 target tracers
      newExecuted k).1, KillShotBacked ctx newExecuted j := by
  unfold burstPhase
  split
  · dsimp only
    split
    · intro j hj harmed
      rcases mem_set_jets _ _ _ j hj with hmem | rfl
      · exfalso
        rcases killShotResolve_mem ctx jets jet _ _ j hmem with h | ⟨j0, hj0, hbs, _, _⟩
        · exact absurd harmed (by simp [hjets j h])
        · rw [hbs] at harmed
          exact absurd harmed (by simp [hjets j0 hj0])
      · have hflagfalse : (killShotResolve ctx jets jet
            { jet.burstState with nextShotTimer := jet.burstState.nextShotTimer - TICK_DELTA }
            (k + 4)).2.1.isKillShot = false :=
          killShotResolve_flag_false ctx jets jet _ (k + 4) (by simpa using hjet)
        have harm2 : (burstCountdown ctx jet newExecuted
            (killShotResolve ctx jets jet
              { jet.burstState with nextShotTimer := jet.burstState.nextShotTimer - TICK_DELTA }
              (k + 4)).2.1).1.isKillShot = true := by
          simpa using harmed
        have hsame : (((killShotResolve ctx jets jet
              { jet.burstState with nextShotTimer := jet.burstState.nextShotTimer - TICK_DELTA }
              (k + 4)).1.get? i).getD jet).id = jet.id ∧
            (((killShotResolve ctx jets jet
              { jet.burstState with nextShotTimer := jet.burstState.nextShotTimer - TICK_DELTA }
              (k + 4)).1.get? i).getD jet).targetId =
              jet.targetId := by
          rcases killShotResolve_get? ctx jets jet
            { jet.burstState with nextShotTimer := jet.burstState.nextShotTimer - TICK_DELTA }
            (k + 4) i with h | ⟨j0, hj0, j1, hj1, he1, he2, _⟩
          · rw [h]
            cases hg : jets.get? i with
            | none => exact ⟨rfl, rfl⟩
            | some j0 => simpa using hid j0 hg
          · rw [hj1]
            have := hid j0 hj0
            simp only [Option.getD_some]
            exact ⟨he1.trans this.1, he2.trans this.2⟩
        obtain ⟨e, hmem, hnex, hnnew, htype, hatt, htid⟩ :=
          burstCountdown_armed ctx jet newExecuted _ hflagfalse harm2
        refine ⟨e, hmem, hnex, hnnew, htype, ?_, ?_⟩
        · rw [hsame.1]; exact hatt
        · rw [hsame.2]; exact htid
    · intro j hj harmed
      rcases mem_set_jets _ _ _ j hj with hmem | rfl
      · exact absurd harmed (by simp [hjets j hmem])
      · exact absurd harmed (by simp [hjet])
  · intro j hj harmed
    exact absurd harmed (by simp [hjets j hj])

-- ====================================================================================
-- C4: lethality gating
-- ====================================================================================

lemma detOutcome_dud (jets : List Jet) (m : Missile) (h : m.willDetonate = false) :
    (detOutcome jets m).1 = none ∧ ∃ m2, (detOutcome jets m).2 = some m2 := by
  unfold detOutcome
  split
  · split
    · simp [h]
    · exact ⟨rfl, _, rfl⟩
  · exact ⟨rfl, _, rfl⟩

lemma detOutcome_dud_disarm (jets : List Jet) (m : Missile) (tj : Jet)
    (h : m.willDetonate = false)
    (hfind : jets.find? (fun j =>
      idMatches m.targetId j.id && !j.isWrecked && !j.isDestroyed) = some tj)
    (hdist : distSq m.position tj.position <
      MISSILE_PROXIMITY_DETONATION_RANGE * MISSILE_PROXIMITY_DETONATION_RANGE) :
    (detOutcome jets m).2 = some { m with targetId := none } := by
  unfold detOutcome
  rw [hfind]
  dsimp only
  rw [if_pos hdist]
  simp [h]

lemma detonationFilter_destroyed_aux (jets : List Jet) :
    ∀ (missiles : List Missile) (acc : DetOut),
      (∀ m ∈ missiles, (detOutcome jets m).1 = none) →
      (missiles.foldl (fun acc missile =>
        let oc := detOutcome jets missile
        { missiles :=
            match oc.2 with
            | some m => acc.missiles ++ [m]
            | none => acc.missiles
          destroyedJetIds :=
            match oc.1 with
            | some id => insertUnique acc.destroyedJetIds id
            | none => acc.destroyedJetIds }) acc).destroyedJetIds =
        acc.destroyedJetIds := by
  intro missiles
  induction missiles with
  | nil => intro acc _; rfl
  | cons a rest ih =>
    intro acc hnone
    rw [List.foldl_cons]
    rw [ih _ (fun m hm => hnone m (List.mem_cons_of_mem a hm))]
    dsimp only
    rw [hnone a (List.mem_cons_self a rest)]

lemma detonationFilter_dud (jets : List Jet) (missiles : List Missile)
    (h : ∀ m ∈ missiles, m.willDetonate = false) :
    (detonationFilter jets missiles).destroyedJetIds = [] := by
  unfold detonationFilter
  exact detonationFilter_destroyed_aux jets missiles _
    (fun m hm => (detOutcome_dud jets m (h m hm)).1)

lemma applyWreckAt_nil (rng : Rng) (now : ℚ) (acc : List Jet × Nat) (i : Nat) :
    applyWreckAt rng now [] acc i = acc := by
  unfold applyWreckAt
  split
  · rfl
  · simp

lemma applyWrecks_nil (rng : Rng) (now : ℚ) (jets : List Jet) (k0 : Nat) :
    applyWrecks rng now [] jets k0 = (jets, k0) := by
  unfold applyWrecks
  suffices h : ∀ (l : List Nat) (acc : List Jet × Nat),
      l.foldl (applyWreckAt rng now []) acc = acc by
    exact h _ _
  intro l
  induction l with
  | nil => intro acc; rfl
  | cons a t ih =>
    intro acc
    rw [List.foldl_cons, applyWreckAt_nil, ih]

lemma forcedMissileOf_spec (geo : Geo) (jets : List Jet) (now : ℚ) (e : BattleEvent)
    (m : Missile) (h : forcedMissileOf geo jets now e = some m) :
    e.type = .destroy ∧ m.willDetonate = true ∧ m.targetId = some e.targetId := by
  unfold forcedMissileOf at h
  by_cases htype : (e.type == EventType.destroy) = true
  · rw [if_pos htype] at h
    cases hfa : jets.find? (fun j => j.id == e.attackerId && !j.isWrecked) with
    | none => rw [hfa] at h; simp at h
    | some attacker =>
      cases hft : jets.find? (fun j => j.id == e.targetId && !j.isWrecked) with
      | none => rw [hfa, hft] at h; simp at h
      | some target =>
        rw [hfa, hft] at h
        dsimp only at h
        have hm := (Option.some.injEq _ m).mp h
        have hp := List.find?_some hft
        simp only [Bool.and_eq_true, beq_iff_eq] at hp
        refine ⟨by simpa using htype, ?_, ?_⟩
        · rw [← hm]
        · rw [← hm]
          simp [hp.1]
  · rw [if_neg htype] at h
    simp at h

lemma execStep_missile_mem (geo : Geo) (jets : List Jet)
    (scheduled executed : List BattleEvent) (elapsed now : ℚ) (missiles : List Missile) :
    ∀ m ∈ (execStep geo jets scheduled executed elapsed now missiles).missiles,
      m ∈ missiles ∨ ∃ e ∈ scheduled, e.timestamp ≤ elapsed ∧ e ∉ executed ∧
        forcedMissileOf geo jets now e = some m := by
  intro m hm
  rw [execStep_spec] at hm
  simp only [List.mem_append, List.mem_filterMap, List.mem_filter,
    Bool.and_eq_true, decide_eq_true_eq, Bool.not_eq_true'] at hm
  rcases hm with h | ⟨e, ⟨he, hts, hnc⟩, hf⟩
  · exact Or.inl h
  · refine Or.inr ⟨e, he, hts, ?_, hf⟩
    simpa using hnc

/-- C4: lethality gating.  (1) A dud missile (`willDetonate = false`) never produces a
kill in the proximity-detonation check and always survives it; (2) within the
proximity radius of a living target the dud disarms, losing its target, and continues;
(3) a volley of duds contributes nothing to `destroyedJetIds`, and (4) an empty
`destroyedJetIds` wrecks nobody in the wreck-application pass; (5) a forced missile is
produced only for a destroy event, always with `willDetonate = true` aimed at the
scripted target, and (6) every missile in the per-tick scheduled pass output either was
already present or arises from an unexecuted due scheduled event via `forcedMissileOf`;
(7) a missile created by the firing logic carries `willDetonate = true` only if an
unexecuted destroy event with exactly this attacker id and this target id exists in
the script; (8) a burst kill-shot flag is armed only when backed by such an event. -/
theorem c4_lethality_gating :
    (∀ (jets : List Jet) (m : Missile), m.willDetonate = false →
      (detOutcome jets m).1 = none ∧ ∃ m2, (detOutcome jets m).2 = some m2) ∧
    (∀ (jets : List Jet) (m : Missile) (tj : Jet), m.willDetonate = false →
      jets.find? (fun j =>
        idMatches m.targetId j.id && !j.isWrecked && !j.isDestroyed) = some tj →
      distSq m.position tj.position <
        MISSILE_PROXIMITY_DETONATION_RANGE * MISSILE_PROXIMITY_DETONATION_RANGE →
      (detOutcome jets m).2 = some { m with targetId := none }) ∧
    (∀ (jets : List Jet) (missiles : List Missile),
      (∀ m ∈ missiles, m.willDetonate = false) →
      (detonationFilter jets missiles).destroyedJetIds = []) ∧
    (∀ (rng : Rng) (now : ℚ) (jets : List Jet) (k0 : Nat),
      applyWrecks rng now [] jets k0 = (jets, k0)) ∧
    (∀ (geo : Geo) (jets : List Jet) (now : ℚ) (e : BattleEvent) (m : Missile),
      forcedMissileOf geo jets now e = some m →
      e.type = .destroy ∧ m.willDetonate = true ∧ m.targetId = some e.targetId) ∧
    (∀ (geo : Geo) (jets : List Jet) (scheduled executed : List BattleEvent)
      (elapsed now : ℚ) (missiles : List Missile),
      ∀ m ∈ (execStep geo jets scheduled executed elapsed now missiles).missiles,
        m ∈ missiles ∨ ∃ e ∈ scheduled, e.timestamp ≤ elapsed ∧ e ∉ executed ∧
          forcedMissileOf geo jets now e = some m) ∧
    (∀ (ctx : TickCtx) (jets : List Jet) (i : Nat) (jet : Jet) (position2 : Vec3)
      (quaternion1 : Quat) (target : Option Jet) (missiles : List Missile)
      (newExecuted : List BattleEvent) (k : Nat),
      (firingPhase ctx jets i jet position2 quaternion1 target missiles newExecuted
          k).2.1 = missiles ∨
      ∃ m, (firingPhase ctx jets i jet position2 quaternion1 target missiles
          newExecuted k).2.1 = missiles ++ [m] ∧ m.targetId = jet.targetId ∧
        (m.willDetonate = true →
          ∃ e ∈ ctx.scheduled, e ∉ ctx.executed ∧ e ∉ newExecuted ∧ e.type = .destroy ∧
            e.attackerId = jet.id ∧ jet.targetId = some e.targetId)) ∧
    (∀ (ctx : TickCtx) (jets : List Jet) (i : Nat) (jet : Jet) (position2 : Vec3)
      (quaternion1 : Quat) (target : Option Jet) (tracers : List Tracer)
      (newExecuted : List BattleEvent) (k : Nat),
      (∀ j ∈ jets, j.burstState.isKillShot = false) →
      jet.burstState.isKillShot = false →
      (∀ j0, jets.get? i = some j0 → j0.id = jet.id ∧ j0.targetId = jet.targetId) →
      ∀ j ∈ (burstPhase ctx jets i jet position2 quaternion1 target tracers
        newExecuted k).1, KillShotBacked ctx newExecuted j) := by
  refine ⟨detOutcome_dud, detOutcome_dud_disarm, detonationFilter_dud, applyWrecks_nil,
    forcedMissileOf_spec, execStep_missile_mem, firingPhase_missiles_spec, burstPhase_armed⟩

def c4Dud : Missile :=
  { id := "m_a1_0"
    position := ⟨0, 0, 0⟩
    velocity := ⟨0, 0, 1⟩
    quaternion := ⟨0, 0, 0, 1⟩
    life := 10
    targetId := some "e1"
    willDetonate := false }

def c4Target : Jet := { baseJet "e1" .enemy with position := ⟨3, 0, 4⟩ }

/-- Witness for C4 at a concrete dud missile sitting 5 units from a living target:
it kills nobody, survives, and disarms; the detonation pass over it destroys nothing
and the wreck pass over an empty kill list is the identity. -/
theorem c4_lethality_gating_witness :
    (detOutcome [c4Target] c4Dud).1 = none ∧
    (detOutcome [c4Target] c4Dud).2 = some { c4Dud with targetId := none } ∧
    (detonationFilter [c4Target] [c4Dud]).destroyedJetIds = [] ∧
    applyWrecks rng0 0 [] [c4Target] 0 = ([c4Target], 0) := by
  obtain ⟨h1, h2, h3, h4, _⟩ := c4_lethality_gating
  refine ⟨(h1 [c4Target] c4Dud rfl).1, ?_, ?_, h4 rng0 0 [c4Target] 0⟩
  · refine h2 [c4Target] c4Dud c4Target rfl ?_ ?_
    · simp [c4Dud, c4Target, baseJet, idMatches, List.find?]
    · norm_num [c4Dud, c4Target, baseJet, distSq, lengthSq, vsub, vdot,
        MISSILE_PROXIMITY_DETONATION_RANGE]
  · refine h3 [c4Target] [c4Dud] ?_
    intro m hm
    rw [List.mem_singleton] at hm
    subst hm
    rfl

-- ====================================================================================
-- C5: once-only invariants
-- ====================================================================================

/-- Invariant of the per-tick `newExecutedEvents` list: no duplicates, every element a
scripted event not in the persistent executed set. -/
def ExecNewInv (ctx : TickCtx) (l : List BattleEvent) : Prop :=
  l.Nodup ∧ ∀ e ∈ l, e ∈ ctx.scheduled ∧ e ∉ ctx.executed

lemma execNewInv_append (ctx : TickCtx) (l : List BattleEvent) (ev : BattleEvent)
    (h : ExecNewInv ctx l) (hev : ev ∈ ctx.scheduled) (hnex : ev ∉ ctx.executed)
    (hnl : ev ∉ l) : ExecNewInv ctx (l ++ [ev]) := by
  constructor
  · simp [List.nodup_append, h.1, hnl]
  · intro e he
    rcases List.mem_append.mp he with h1 | h1
    · exact h.2 e h1
    · rw [List.mem_singleton] at h1
      subst h1
      exact ⟨hev, hnex⟩

lemma firingPhase_execNew (ctx : TickCtx) (jets : List Jet) (i : Nat) (jet : Jet)
    (position2 : Vec3) (quaternion1 : Quat) (target : Option Jet)
    (missiles : List Missile) (newExecuted : List BattleEvent) (k : Nat)
    (h : ExecNewInv ctx newExecuted) :
    ExecNewInv ctx (firingPhase ctx jets i jet position2 quaternion1 target missiles
      newExecuted k).2.2.1 := by
  unfold firingPhase
  cases target with
  | none => exact h
  | some tgt =>
    dsimp only
    split
    · split
      · split
        · dsimp only
          split
          next ev hfind =>
            have hp := List.find?_some hfind
            have hmem := List.mem_of_find?_eq_some hfind
            simp only [Bool.and_eq_true, beq_iff_eq] at hp
            refine execNewInv_append ctx newExecuted ev h hmem ?_ ?_
            · have h1 := hp.1.2
              simp only [Bool.not_eq_true'] at h1
              simpa using h1
            · have h2 := hp.2
              simp only [Bool.not_eq_true'] at h2
              simpa using h2
          next hfind => exact h
        · exact h
      · exact h
    · exact h

lemma burstCountdown_execNew (ctx : TickCtx) (jet : Jet)
    (newExecuted : List BattleEvent) (bs1 : BurstState)
    (h : ExecNewInv ctx newExecuted) :
    ExecNewInv ctx (burstCountdown ctx jet newExecuted bs1).2 := by
  unfold burstCountdown
  split
  · dsimp only
    split
    · split
      · exact h
      · split
        · split
          next ev hfind =>
            have hp := List.find?_some hfind
            have hmem := List.mem_of_find?_eq_some hfind
            simp only [Bool.and_eq_true, beq_iff_eq] at hp
            refine execNewInv_append ctx newExecuted ev h hmem ?_ ?_
            · have h1 := hp.1.2
              simp only [Bool.not_eq_true'] at h1
              simpa using h1
            · have h2 := hp.2
              simp only [Bool.not_eq_true'] at h2
              simpa using h2
          next hfind => exact h
        · exact h
    · exact h
  · exact h

lemma burstPhase_execNew (ctx : TickCtx) (jets : List Jet) (i : Nat) (jet : Jet)
    (position2 : Vec3) (quaternion1 : Quat) (target : Option Jet)
    (tracers : List Tracer) (newExecuted : List BattleEvent) (k : Nat)
    (h : ExecNewInv ctx newExecuted) :
    ExecNewInv ctx (burstPhase ctx jets i jet position2 quaternion1 target tracers
      newExecuted k).2.2.1 := by
  unfold burstPhase
  split
  · dsimp only
    split
    · exact burstCountdown_execNew ctx jet newExecuted _ h
    · exact h
  · exact h

lemma updateJet_execNew (ctx : TickCtx) (acc : JetsAcc) (i : Nat)
    (h : ExecNewInv ctx acc.newExecuted) :
    ExecNewInv ctx (updateJet ctx acc i).newExecuted := by
  unfold updateJet
  split
  · exact h
  · split
    · exact h
    · split
      · exact h
      · dsimp only
        exact burstPhase_execNew _ _ _ _ _ _ _ _ _ _
          (firingPhase_execNew _ _ _ _ _ _ _ _ _ _ h)

lemma foldl_updateJet_execNew (ctx : TickCtx) :
    ∀ (l : List Nat) (acc : JetsAcc), ExecNewInv ctx acc.newExecuted →
      ExecNewInv ctx ((l.foldl (updateJet ctx) acc)).newExecuted := by
  intro l
  induction l with
  | nil => intro acc h; exact h
  | cons a t ih =>
    intro acc h
    rw [List.foldl_cons]
    exact ih _ (updateJet_execNew ctx acc a h)

lemma tick_executed_core (ctx : TickCtx) (l : List Nat) (acc0 : JetsAcc)
    (exec : List BattleEvent) (hexec : exec.Nodup) (hc1 : ctx.executed = exec)
    (h0 : ExecNewInv ctx acc0.newExecuted) :
    (∃ newEvs, exec ++ (l.foldl (updateJet ctx) acc0).newExecuted = exec ++ newEvs ∧
      ∀ e ∈ newEvs, e ∈ ctx.scheduled ∧ e ∉ exec) ∧
    (exec ++ (l.foldl (updateJet ctx) acc0).newExecuted).Nodup := by
  have hf := foldl_updateJet_execNew ctx l acc0 h0
  subst hc1
  refine ⟨⟨_, rfl, fun e he => hf.2 e he⟩, ?_⟩
  rw [List.nodup_append]
  exact ⟨hexec, hf.1, List.disjoint_right.mpr fun a ha => (hf.2 a ha).2⟩

lemma tick_executed (geo : Geo) (rng : Rng) (now : ℚ) (re : Bool) (s : SimState)
    (hsched : s.scheduledEvents.Nodup) (hexec : s.executedEvents.Nodup) :
    (∃ newEvs, (tick geo rng now re s).executedEvents = s.executedEvents ++ newEvs ∧
      ∀ e ∈ newEvs, e ∈ s.scheduledEvents ∧ e ∉ s.executedEvents) ∧
    (tick geo rng now re s).executedEvents.Nodup := by
  unfold tick
  split
  · exact ⟨⟨[], by simp, by simp⟩, hexec⟩
  · dsimp only
    split
    · constructor
      · refine ⟨[], ?_, by simp⟩
        rw [List.append_nil]
        dsimp only
        split <;> rfl
      · dsimp only
        split <;> exact hexec
    · have h0 : (execStep geo (s.alliedJets ++ s.enemyJets) s.scheduledEvents
          s.executedEvents (now - s.startTime) now s.missiles).newExecuted.Nodup ∧
          ∀ e ∈ (execStep geo (s.alliedJets ++ s.enemyJets) s.scheduledEvents
            s.executedEvents (now - s.startTime) now s.missiles).newExecuted,
            e ∈ s.scheduledEvents ∧ e ∉ s.executedEvents := by
        rw [execStep_spec]
        constructor
        · exact hsched.filter _
        · intro e he
          simp only [List.mem_filter, Bool.and_eq_true, decide_eq_true_eq,
            Bool.not_eq_true'] at he
          refine ⟨he.1, ?_⟩
          simpa using he.2.2
      split <;> exact tick_executed_core _ _ _ _ hexec rfl ⟨h0.1, h0.2⟩

/-- `b` arises from `a` by possibly wrecking more jets: same length, and a wrecked jet
at any index stays wrecked. -/
def WreckLe (a b : List Jet) : Prop :=
  b.length = a.length ∧
  ∀ i j0 j1, a.get? i = some j0 → b.get? i = some j1 →
    j0.isWrecked = true → j1.isWrecked = true

lemma wreckLe_refl (a : List Jet) : WreckLe a a := by
  refine ⟨rfl, ?_⟩
  intro i j0 j1 h0 h1 hw
  rw [h0] at h1
  cases h1
  exact hw

lemma wreckLe_trans {a b c : List Jet} (h1 : WreckLe a b) (h2 : WreckLe b c) :
    WreckLe a c := by
  refine ⟨h2.1.trans h1.1, ?_⟩
  intro i j0 j2 ha hc hw
  have hib : i < b.length := by
    rw [h1.1]
    exact (List.get?_eq_some.mp ha).1
  have hb := List.get?_eq_get hib
  exact h2.2 i _ j2 hb hc (h1.2 i j0 _ ha hb hw)

lemma wreckLe_set (a : List Jet) (i : Nat) (v : Jet)
    (h : ∀ j0, a.get? i = some j0 → j0.isWrecked = true → v.isWrecked = true) :
    WreckLe a (a.set i v) := by
  refine ⟨by simp, ?_⟩
  intro i' j0 j1 h0 h1 hw
  by_cases hii : i = i'
  · subst hii
    have hlt : i < a.length := (List.get?_eq_some.mp h0).1
    rw [List.get?_eq_getElem?, List.getElem?_set_self hlt] at h1
    cases h1
    exact h j0 h0 hw
  · rw [List.get?_eq_getElem?, List.getElem?_set_ne hii, ← List.get?_eq_getElem?] at h1
    rw [h0] at h1
    cases h1
    exact hw

lemma wreckLe_setJetById (a : List Jet) (id : String) (f : Jet → Jet)
    (h : ∀ j, j.isWrecked = true → (f j).isWrecked = true) :
    WreckLe a (setJetById a id f) := by
  refine ⟨setJetById_length a id f, ?_⟩
  intro i j0 j1 h0 h1 hw
  rcases setJetById_get? a id f i with heq | ⟨j2, hj2, hj3⟩
  · rw [heq, h0] at h1
    cases h1
    exact hw
  · rw [h0] at hj2
    cases hj2
    rw [hj3] at h1
    cases h1
    exact h j0 hw

lemma wreckLe_map (a : List Jet) (f : Jet → Jet)
    (h : ∀ j, j.isWrecked = true → (f j).isWrecked = true) :
    WreckLe a (a.map f) := by
  refine ⟨by simp, ?_⟩
  intro i j0 j1 h0 h1 hw
  rw [List.get?_map, h0, Option.map_some'] at h1
  cases h1
  exact h j0 hw

lemma wreckLe_foldl {α : Type} (step : List Jet → α → List Jet)
    (h : ∀ acc x, WreckLe acc (step acc x)) :
    ∀ (l : List α) (acc : List Jet), WreckLe acc (l.foldl step acc) := by
  intro l
  induction l with
  | nil => intro acc; exact wreckLe_refl acc
  | cons a t ih =>
    intro acc
    rw [List.foldl_cons]
    exact wreckLe_trans (h acc a) (ih _)

lemma wreckLe_foldl_pair {α : Type} (step : (List Jet × Nat) → α → (List Jet × Nat))
    (h : ∀ acc x, WreckLe acc.1 (step acc x).1) :
    ∀ (l : List α) (acc : List Jet × Nat), WreckLe acc.1 ((l.foldl step acc)).1 := by
  intro l
  induction l with
  | nil => intro acc; exact wreckLe_refl acc.1
  | cons a t ih =>
    intro acc
    rw [List.foldl_cons]
    exact wreckLe_trans (h acc a) (ih _)

lemma wreckLe_killShotResolve (ctx : TickCtx) (jets : List Jet) (jet : Jet)
    (bs0 : BurstState) (k1 : Nat) :
    WreckLe jets (killShotResolve ctx jets jet bs0 k1).1 := by
  unfold killShotResolve
  split
  · split
    · exact wreckLe_setJetById _ _ _ (fun j _ => rfl)
    · exact wreckLe_refl _
  · exact wreckLe_refl _

lemma wreckLe_firingPhase (ctx : TickCtx) (jets : List Jet) (i : Nat) (jet : Jet)
    (position2 : Vec3) (quaternion1 : Quat) (target : Option Jet)
    (missiles : List Missile) (newExecuted : List BattleEvent) (k : Nat)
    (hjet : ∀ j0, jets.get? i = some j0 → j0.isWrecked = true → jet.isWrecked = true) :
    WreckLe jets (firingPhase ctx jets i jet position2 quaternion1 target missiles
      newExecuted k).1 := by
  unfold firingPhase
  cases target with
  | none => exact wreckLe_refl _
  | some tgt =>
    dsimp only
    split
    · split
      · split
        · split
          · split
            · refine wreckLe_trans (wreckLe_set jets i _ ?_)
                (wreckLe_setJetById _ _ _ ?_)
              · intro j0 h0 hw
                exact hjet j0 h0 hw
              · intro j hw
                exact hw
            · refine wreckLe_set jets i _ ?_
              intro j0 h0 hw
              exact hjet j0 h0 hw
          · refine wreckLe_set jets i _ ?_
            intro j0 h0 hw
            exact hjet j0 h0 hw
        · refine wreckLe_set jets i _ ?_
          intro j0 h0 hw
          exact hjet j0 h0 hw
      · refine wreckLe_set jets i _ ?_
        intro j0 h0 hw
        exact hjet j0 h0 hw
    · exact wreckLe_refl _

lemma wreckLe_burstPhase (ctx : TickCtx) (jets : List Jet) (i : Nat) (jet : Jet)
    (position2 : Vec3) (quaternion1 : Quat) (target : Option Jet)
    (tracers : List Tracer) (newExecuted : List BattleEvent) (k : Nat)
    (hjet : ∀ j0, jets.get? i = some j0 → j0.isWrecked = true → jet.isWrecked = true) :
    WreckLe jets (burstPhase ctx jets i jet position2 quaternion1 target tracers
      newExecuted k).1 := by
  unfold burstPhase
  split
  · dsimp only
    split
    · refine wreckLe_trans (wreckLe_killShotResolve ctx jets jet _ (k + 4))
        (wreckLe_set _ i _ ?_)
      intro j0 hj0 hw
      rw [hj0]
      simpa using hw
    · refine wreckLe_set jets i _ ?_
      intro j0 h0 hw
      exact hjet j0 h0 hw
  · exact wreckLe_refl _

lemma wreckLe_flarePhase (ctx : TickCtx) (jets : List Jet) (i : Nat) (jet : Jet)
    (position2 : Vec3) (quaternion1 : Quat) (flares : List Flare)
    (hjet : ∀ j0, jets.get? i = some j0 → j0.isWrecked = true → jet.isWrecked = true) :
    WreckLe jets (flarePhase ctx jets i jet position2 quaternion1 flares).1 := by
  unfold flarePhase
  split
  · dsimp only
    split
    · refine wreckLe_set jets i _ ?_
      intro j0 h0 hw
      exact hjet j0 h0 hw
    · refine wreckLe_set jets i _ ?_
      intro j0 h0 hw
      exact hjet j0 h0 hw
  · exact wreckLe_refl _

lemma wreckLe_greenSwap (now : ℚ) (jets : List Jet) :
    WreckLe jets (greenSwap now jets) := by
  unfold greenSwap
  split
  · dsimp only
    split
    · refine wreckLe_trans (wreckLe_setJetById _ _ _ ?_)
        (wreckLe_setJetById _ _ _ ?_)
      · intro j hw
        exact hw
      · intro j hw
        exact hw
    · exact wreckLe_refl _
  · exact wreckLe_refl _

lemma wreckLe_cinematicPrep (scheduled executed : List BattleEvent) (elapsed : ℚ)
    (jets0 : List Jet) :
    WreckLe jets0 (cinematicPrep scheduled executed elapsed jets0) := by
  unfold cinematicPrep
  dsimp only
  refine wreckLe_trans (wreckLe_map _ _ ?_) (wreckLe_foldl _ ?_ _ _)
  · intro j hw
    exact hw
  · intro cur x
    dsimp only
    split
    · exact wreckLe_refl _
    · next jet1 hget =>
      split
      · exact wreckLe_refl _
      · refine wreckLe_trans (wreckLe_set _ _ _ ?_) (wreckLe_setJetById _ _ _ ?_)
        · intro j0 hj0 hw
          rw [hget] at hj0
          cases hj0
          exact hw
        · intro j hw
          exact hw

lemma wreckLe_applyWreckAt (rng : Rng) (now : ℚ) (ids : List String)
    (acc : List Jet × Nat) (i : Nat) :
    WreckLe acc.1 (applyWreckAt rng now ids acc i).1 := by
  unfold applyWreckAt
  split
  · exact wreckLe_refl _
  · split
    · dsimp only
      split
      · split
        · refine wreckLe_set _ _ _ ?_
          intro j0 h0 hw
          rfl
        · refine wreckLe_trans ?_ (wreckLe_foldl _ ?_ _ _)
          · split
            · split
              · refine wreckLe_trans ?_ (wreckLe_setJetById _ _ _ ?_)
                · refine wreckLe_trans ?_ (wreckLe_setJetById _ _ _ ?_)
                  · refine wreckLe_set _ _ _ ?_
                    intro j0 h0 hw
                    rfl
                  · intro j hw
                    exact hw
                · intro j hw
                  exact hw
              · refine wreckLe_trans ?_ (wreckLe_setJetById _ _ _ ?_)
                · refine wreckLe_set _ _ _ ?_
                  intro j0 h0 hw
                  rfl
                · intro j hw
                  exact hw
            · refine wreckLe_trans ?_ (wreckLe_setJetById _ _ _ ?_)
              · refine wreckLe_set _ _ _ ?_
                intro j0 h0 hw
                rfl
              · intro j hw
                exact hw
          · intro c w
            refine wreckLe_setJetById _ _ _ ?_
            intro j hw
            exact hw
      · refine wreckLe_set _ _ _ ?_
        intro j0 h0 hw
        rfl
    · exact wreckLe_refl _

lemma wreckLe_applyWrecks (rng : Rng) (now : ℚ) (ids : List String)
    (jets : List Jet) (k0 : Nat) :
    WreckLe jets (applyWrecks rng now ids jets k0).1 := by
  unfold applyWrecks
  exact wreckLe_foldl_pair _ (fun acc i => wreckLe_applyWreckAt rng now ids acc i) _ _

/-- Invariant of the per-jet update fold after `n` processed indices: the working array
only gets more wrecked, and the `n` emitted output jets preserve wreckedness
index-by-index against the pre-loop array. -/
def UpdInv (base : List Jet) (n : Nat) (acc : JetsAcc) : Prop :=
  WreckLe base acc.jets ∧ acc.outJets.length = n ∧
  ∀ i j0 oj, base.get? i = some j0 → acc.outJets.get? i = some oj →
    j0.isWrecked = true → oj.isWrecked = true

lemma updateJet_upd (ctx : TickCtx) (base : List Jet) (acc : JetsAcc) (x : Nat)
    (h : UpdInv base x acc) (hx : x < base.length) :
    UpdInv base (x+1) (updateJet ctx acc x) := by
  have hxs : x < acc.jets.length := by
    rw [h.1.1]
    exact hx
  unfold updateJet
  split
  next heq =>
    have := List.get?_eq_none.mp heq
    omega
  next jet heq =>
    split
    next hwr =>
      refine ⟨?_, ?_, ?_⟩
      · dsimp only
        refine wreckLe_trans h.1 (wreckLe_set _ _ _ ?_)
        intro j0 h0 hw
        exact hwr
      · dsimp only
        simp [h.2.1]
      · dsimp only
        intro i j0 oj hb ho hw
        rcases Nat.lt_trichotomy i x with hlt | rfl | hgt
        · rw [List.get?_append (by rw [h.2.1]; exact hlt)] at ho
          exact h.2.2 i j0 oj hb ho hw
        · rw [← h.2.1, List.get?_concat_length] at ho
          cases ho
          exact hwr
        · have hi := (List.get?_eq_some.mp ho).1
          simp [h.2.1] at hi
          omega
    next hwr =>
      split
      next hdes =>
        refine ⟨h.1, ?_, ?_⟩
        · dsimp only
          simp [h.2.1]
        · dsimp only
          intro i j0 oj hb ho hw
          rcases Nat.lt_trichotomy i x with hlt | rfl | hgt
          · rw [List.get?_append (by rw [h.2.1]; exact hlt)] at ho
            exact h.2.2 i j0 oj hb ho hw
          · rw [← h.2.1, List.get?_concat_length] at ho
            cases ho
            exact absurd (h.1.2 i j0 jet hb heq hw) hwr
          · have hi := (List.get?_eq_some.mp ho).1
            simp [h.2.1] at hi
            omega
      next hdes =>
        refine ⟨?_, ?_, ?_⟩
        · dsimp only
          refine wreckLe_trans h.1 ?_
          refine wreckLe_trans ?_ (wreckLe_flarePhase _ _ _ _ _ _ _ ?_)
          · refine wreckLe_trans ?_ (wreckLe_burstPhase _ _ _ _ _ _ _ _ _ _ ?_)
            · refine wreckLe_trans ?_ (wreckLe_firingPhase _ _ _ _ _ _ _ _ _ _ ?_)
              · refine wreckLe_set acc.jets x _ ?_
                intro j0 h0 hw
                rw [heq] at h0
                cases h0
                exact hw
              · intro j0 h0 hw
                rw [List.get?_eq_getElem?, List.getElem?_set_self hxs] at h0
                cases h0
                exact hw
            · intro j0 h0 hw
              rw [h0]
              simpa using hw
          · intro j0 h0 hw
            rw [h0]
            simpa using hw
        · dsimp only
          simp [h.2.1]
        · dsimp only
          intro i j0 oj hb ho hw
          rcases Nat.lt_trichotomy i x with hlt | rfl | hgt
          · rw [List.get?_append (by rw [h.2.1]; exact hlt)] at ho
            exact h.2.2 i j0 oj hb ho hw
          · rw [← h.2.1, List.get?_concat_length] at ho
            cases ho
            exact absurd (h.1.2 i j0 jet hb heq hw) hwr
          · have hi := (List.get?_eq_some.mp ho).1
            simp [h.2.1] at hi
            omega

lemma foldl_updateJet_upd (ctx : TickCtx) (base : List Jet) :
    ∀ (n : Nat) (acc : JetsAcc), UpdInv base 0 acc → n ≤ base.length →
      UpdInv base n ((List.range n).foldl (updateJet ctx) acc) := by
  intro n
  induction n with
  | zero => intro acc h _; exact h
  | succ m ih =>
    intro acc h hle
    rw [List.range_succ, List.foldl_append, List.foldl_cons, List.foldl_nil]
    exact updateJet_upd ctx base _ m (ih acc h (Nat.le_of_succ_le hle))
      (Nat.lt_of_succ_le hle)

lemma tick_wreck_core (ctx : TickCtx) (allJets jets4 : List Jet) (acc0 : JetsAcc)
    (f : Nat → Jet → Jet) (h4 : WreckLe allJets jets4)
    (hacc : acc0.jets = jets4) (hout : acc0.outJets = [])
    (hf : ∀ i x, (f i x).isWrecked = x.isWrecked) :
    ∀ i j0 j1, allJets.get? i = some j0 →
      ((((List.range jets4.length).foldl (updateJet ctx) acc0)).outJets.mapIdx f).get? i =
        some j1 →
      j0.isWrecked = true → j1.isWrecked = true := by
  have h0inv : UpdInv jets4 0 acc0 := by
    refine ⟨?_, ?_, ?_⟩
    · rw [hacc]
      exact wreckLe_refl _
    · rw [hout]
      rfl
    · intro i j0 oj hb ho hw
      rw [hout] at ho
      exact absurd ho (by simp)
  have hF := foldl_updateJet_upd ctx jets4 jets4.length acc0 h0inv le_rfl
  intro i j0 j1 hall hmap hw
  rw [List.get?_eq_getElem?, List.getElem?_mapIdx] at hmap
  cases ho : ((List.range jets4.length).foldl (updateJet ctx) acc0).outJets.get? i with
  | none =>
    rw [List.get?_eq_getElem?] at ho
    rw [ho] at hmap
    simp at hmap
  | some oj =>
    have ho2 := ho
    rw [List.get?_eq_getElem?] at ho2
    rw [ho2] at hmap
    simp only [Option.map_some'] at hmap
    cases hmap
    rw [hf i oj]
    have hi : i < ((List.range jets4.length).foldl (updateJet ctx) acc0).outJets.length :=
      (List.get?_eq_some.mp ho).1
    have hi4 : i < jets4.length := by
      rw [hF.2.1] at hi
      exact hi
    have hj4 := List.get?_eq_get hi4
    have hw4 := h4.2 i j0 _ hall hj4 hw
    exact hF.2.2 i _ oj hj4 ho hw4

lemma tick_wreck (geo : Geo) (rng : Rng) (now : ℚ) (s : SimState) :
    (∀ i j0 j1, s.alliedJets.get? i = some j0 →
      (tick geo rng now false s).alliedJets.get? i = some j1 →
      j0.isWrecked = true → j1.isWrecked = true) ∧
    (∀ i j0 j1, s.enemyJets.get? i = some j0 →
      (tick geo rng now false s).enemyJets.get? i = some j1 →
      j0.isWrecked = true → j1.isWrecked = true) := by
  unfold tick
  split
  · constructor <;> (intro i j0 j1 h0 h1 hw; rw [h0] at h1; cases h1; exact hw)
  · dsimp only
    split
    · constructor <;>
        (intro i j0 j1 h0 h1 hw
         dsimp only at h1
         split at h1 <;> (try dsimp only at h1) <;> (rw [h0] at h1; cases h1; exact hw))
    · split
      next hresp => exact absurd hresp (by simp)
      next hresp =>
        refine ⟨?_, ?_⟩
        · intro i j0 j1 h0 h1 hw
          dsimp only at h1
          have hiA : i < s.alliedJets.length := (List.get?_eq_some.mp h0).1
          rw [List.get?_take hiA] at h1
          have h0' : (s.alliedJets ++ s.enemyJets).get? i = some j0 := by
            rw [List.get?_append hiA]
            exact h0
          refine tick_wreck_core _ _ _ _ _ ?_ rfl rfl ?_ i j0 j1 h0' h1 hw
          · exact wreckLe_trans (wreckLe_applyWrecks _ _ _ _ _)
              (wreckLe_trans (wreckLe_greenSwap _ _) (wreckLe_cinematicPrep _ _ _ _))
          · intro idx xj
            dsimp only
            split <;> rfl
        · intro i j0 j1 h0 h1 hw
          dsimp only at h1
          rw [List.get?_drop] at h1
          have h0' : (s.alliedJets ++ s.enemyJets).get? (s.alliedJets.length + i) =
              some j0 := by
            rw [List.get?_append_right (Nat.le_add_right _ _)]
            simpa using h0
          refine tick_wreck_core _ _ _ _ _ ?_ rfl rfl ?_ _ j0 j1 h0' h1 hw
          · exact wreckLe_trans (wreckLe_applyWrecks _ _ _ _ _)
              (wreckLe_trans (wreckLe_greenSwap _ _) (wreckLe_cinematicPrep _ _ _ _))
          · intro idx xj
            dsimp only
            split <;> rfl

/-- C5: within a single battle (respawn disabled) one tick never un-wrecks an entity —
per index, a wrecked allied or enemy jet is still wrecked after the tick, so no entity
can transition from not-wrecked to wrecked more than once across a battle — and the
executed-events set only grows: the tick appends exactly the events newly consumed
this tick, each a scripted event not already in the executed set, and (given a
duplicate-free script and executed set) the executed set stays duplicate-free, so no
event is ever marked executed twice. -/
theorem c5_once_only (geo : Geo) (rng : Rng) (now : ℚ) (s : SimState)
    (hsched : s.scheduledEvents.Nodup) (hexec : s.executedEvents.Nodup) :
    (∀ i j0 j1, s.alliedJets.get? i = some j0 →
      (tick geo rng now false s).alliedJets.get? i = some j1 →
      j0.isWrecked = true → j1.isWrecked = true) ∧
    (∀ i j0 j1, s.enemyJets.get? i = some j0 →
      (tick geo rng now false s).enemyJets.get? i = some j1 →
      j0.isWrecked = true → j1.isWrecked = true) ∧
    (∃ newEvs, (tick geo rng now false s).executedEvents = s.executedEvents ++ newEvs ∧
      ∀ e ∈ newEvs, e ∈ s.scheduledEvents ∧ e ∉ s.executedEvents) ∧
    (tick geo rng now false s).executedEvents.Nodup := by
  obtain ⟨hA, hB⟩ := tick_wreck geo rng now s
  obtain ⟨hC, hD⟩ := tick_executed geo rng now false s hsched hexec
  exact ⟨hA, hB, hC, hD⟩

def c5State : SimState :=
  { status := .active
    startTime := 0
    endTime := none
    disengageTime := 14000
    battleEndTime := 19000
    alliedJets := []
    enemyJets := []
    playerTactic := .aggressive
    scheduledEvents := []
    executedEvents := []
    tracers := []
    missiles := []
    flares := []
    results := none }

/-- Witness for C5 at a concrete state with a duplicate-free (empty) script: the
executed set after a tick extends the old one by fresh scripted events only and stays
duplicate-free. -/
theorem c5_once_only_witness :
    (∃ newEvs, (tick cGeo rng0 1000 false c5State).executedEvents =
      c5State.executedEvents ++ newEvs ∧
      ∀ e ∈ newEvs, e ∈ c5State.scheduledEvents ∧ e ∉ c5State.executedEvents) ∧
    (tick cGeo rng0 1000 false c5State).executedEvents.Nodup := by
  have h := c5_once_only cGeo rng0 1000 c5State (by simp [c5State]) (by simp [c5State])
  exact ⟨h.2.2.1, h.2.2.2⟩

end IdleAce
